import Mathlib

/-!
# Indicator-LED light service: arbitration and ramp synthesis

A shallow embedding of `aidl/light/LED.cpp`, `aidl/light/Lights.cpp` and
`aidl/light/Lights.h`, and the properties proved about it.

Conventions of the embedding.

* A `uint32_t` is a `Nat`; the result of unsigned arithmetic is reduced with `u32`
  (`% 2 ^ 32`).  An `int` is an `Int`; a value converted or computed into an `int`
  goes through `toInt32` (two's-complement wrap-around).  The cast of an `int32_t`
  to the byte-backed enum `LightType` goes through `toInt8`.
* The sysfs file a write goes to is a `Node`: an attribute of one LED channel
  (`mBasePath + attribute`) or a plain path (backlight, buttons).
* Device I/O is explicit state passing: every function that writes takes the log
  of the writes issued so far (`Trace`) and returns the extended log.  Whether a
  write succeeds is answered by the environment `Utils`, which may look at the
  whole log, so nothing is assumed about how the device answers.
* A C++ exception (`std::array::at` out of range) is the result `none`.
-/

namespace Light

/-! ## Machine integers -/

/-- Reduction of a natural number to the range of `uint32_t`. -/
def u32 (n : Nat) : Nat := n % 2 ^ 32

/-- Conversion of an integer to `int` (32 bits, two's complement, wrapping). -/
def toInt32 (x : Int) : Int := (x + 2 ^ 31) % 2 ^ 32 - 2 ^ 31

/-- Conversion of an integer to `int8_t` (two's complement, wrapping): the low byte. -/
def toInt8 (x : Int) : Int := (x + 2 ^ 7) % 2 ^ 8 - 2 ^ 7

/-! ## Enumerations and plain data -/

/-- The enum `led_type` of `Lights.cpp`; its last enumerator `MAX_LEDS` is only the
size of `kLEDs` and is not a channel. -/
inductive led_type where
  | RED
  | GREEN
  | BLUE
  | WHITE
  deriving DecidableEq, Repr

/-- The enum `light_states` of `Lights.h`. -/
inductive light_states where
  | NOTIFICATION_STATE
  | ATTENTION_STATE
  | BATTERY_STATE
  | MAX_STATES
  deriving DecidableEq, Repr

/-- Numeric value of a `light_states` enumerator. -/
def light_states.toNat : light_states → Nat
  | .NOTIFICATION_STATE => 0
  | .ATTENTION_STATE => 1
  | .BATTERY_STATE => 2
  | .MAX_STATES => 3

/-- The AIDL enum `FlashMode`. -/
inductive FlashMode where
  | NONE
  | TIMED
  | HARDWARE
  deriving DecidableEq, Repr

/-- The AIDL enum `BrightnessMode`. -/
inductive BrightnessMode where
  | USER
  | SENSOR
  | LOW_PERSISTENCE
  deriving DecidableEq, Repr

/-- The AIDL parcelable `HwLightState`: `color` is the 32-bit pattern AARRGGBB,
`flashOnMs` and `flashOffMs` are `int32_t`. -/
structure HwLightState where
  color : Nat
  flashMode : FlashMode
  flashOnMs : Int
  flashOffMs : Int
  brightnessMode : BrightnessMode
  deriving DecidableEq, Repr

/-- The value-initialised state `HwLightState()`. -/
def HwLightState.default : HwLightState :=
  { color := 0, flashMode := .NONE, flashOnMs := 0, flashOffMs := 0, brightnessMode := .USER }

/-- The AIDL enum `LightType`, as the values of its enumerators.  The enum is backed
by a byte (`enum class LightType : int8_t`), so a `LightType` is an integer in
`-128..127`. -/
def LightType.BACKLIGHT : Int := 0
/-- See `LightType.BACKLIGHT`. -/
def LightType.KEYBOARD : Int := 1
/-- See `LightType.BACKLIGHT`. -/
def LightType.BUTTONS : Int := 2
/-- See `LightType.BACKLIGHT`. -/
def LightType.BATTERY : Int := 3
/-- See `LightType.BACKLIGHT`. -/
def LightType.NOTIFICATIONS : Int := 4
/-- See `LightType.BACKLIGHT`. -/
def LightType.ATTENTION : Int := 5

/-- The binder exception code `EX_UNSUPPORTED_OPERATION`. -/
def EX_UNSUPPORTED_OPERATION : Int := -7

/-- Outcome of a binder call, `ndk::ScopedAStatus`. -/
inductive ScopedAStatus where
  | ok
  | fromExceptionCode (code : Int)
  deriving DecidableEq, Repr

/-! ## Device files and the write log -/

/-- Attributes of one LED under `/sys/class/leds/<type>/`. -/
inductive LedAttr where
  | max_brightness
  | brightness
  | breath
  | blink
  | start_idx
  | duty_pcts
  | pause_lo
  | pause_hi
  | ramp_step_ms
  deriving DecidableEq, Repr

/-- A device file: `mBasePath + attribute` of one LED, or a plain path. -/
inductive Node where
  | led (type : led_type) (attr : LedAttr)
  | file (path : String)
  deriving DecidableEq, Repr

/-- Directory name of a channel, the argument of the `LED` constructor. -/
def led_type.name : led_type → String
  | .RED => "red"
  | .GREEN => "green"
  | .BLUE => "blue"
  | .WHITE => "white"

/-- File name of an attribute. -/
def LedAttr.name : LedAttr → String
  | .max_brightness => "max_brightness"
  | .brightness => "brightness"
  | .breath => "breath"
  | .blink => "blink"
  | .start_idx => "start_idx"
  | .duty_pcts => "duty_pcts"
  | .pause_lo => "pause_lo"
  | .pause_hi => "pause_hi"
  | .ramp_step_ms => "ramp_step_ms"

/-- The path a node stands for. -/
def Node.path : Node → String
  | .led t a => "/sys/class/leds/" ++ t.name ++ "/" ++ a.name
  | .file p => p

/-- What is written: a number in decimal, or a text. -/
inductive Val where
  | int (n : Int)
  | str (s : String)
  deriving DecidableEq, Repr

/-- One call of `writeToFile` with its result. -/
structure Event where
  node : Node
  val : Val
  ok : Bool
  deriving DecidableEq, Repr

/-- The writes issued so far, oldest first. -/
abbrev Trace := List Event

/-- The helpers of `Utils.h` whose bodies depend on the device or are not part of
the listed sources: the outcome of `writeToFile` (given the log so far),
`readFromFile` (`none` when the read fails), `fileWriteable`, and
`colorToBrightness`.  Numbers they return are reduced to `uint32_t` where they
are used. -/
structure Utils where
  writeResult : Trace → Node → Val → Bool
  readFromFile : Node → Option Nat
  fileWriteable : Node → Bool
  colorToBrightness : Nat → Nat

/-- The call `writeToFile(path, content)`: the write is logged with its result. -/
def writeToFile (u : Utils) (n : Node) (v : Val) (tr : Trace) : Bool × Trace :=
  let ok := u.writeResult tr n v
  (ok, tr ++ [⟨n, v, ok⟩])

/-- Channel intensities, the struct `argb_t`. -/
structure argb_t where
  alpha : Nat
  red : Nat
  green : Nat
  blue : Nat
  deriving DecidableEq, Repr

/-- Modelled from the spec: `colorToArgb` of `Utils.h`, whose body is not in the
listed sources.  It extracts bits 31:24, 23:16, 15:8 and 7:0 of the color. -/
def colorToArgb (color : Nat) : argb_t :=
  { alpha := color / 2 ^ 24 % 256
    red := color / 2 ^ 16 % 256
    green := color / 2 ^ 8 % 256
    blue := color % 256 }

/-- Modelled from the spec: `isLit` of `Utils.h`, whose body is not in the listed
sources.  A color is lit iff one of red, green, blue is non-zero. -/
def isLit (color : Nat) : Bool :=
  decide ((colorToArgb color).red ≠ 0 ∨ (colorToArgb color).green ≠ 0
    ∨ (colorToArgb color).blue ≠ 0)

/-! ## `LED.cpp` -/

/-- The constant `kDefaultMaxLedBrightness`. -/
def kDefaultMaxLedBrightness : Nat := 255

/-- The class `LED`: `type` names `mBasePath = "/sys/class/leds/" + type + "/"`. -/
structure LED where
  type : led_type
  mMaxBrightness : Nat
  mBreath : Bool
  deriving DecidableEq, Repr

/-- The constructor `LED::LED(type)`: probes `max_brightness` and `breath`. -/
def LED.new (u : Utils) (type : led_type) : LED :=
  { type := type
    mMaxBrightness :=
      match u.readFromFile (.led type .max_brightness) with
      | some m => u32 m
      | none => kDefaultMaxLedBrightness
    mBreath := u.fileWriteable (.led type .breath) }

/-- The method `LED::exists`. -/
def LED.exists (u : Utils) (self : LED) : Bool :=
  u.fileWriteable (.led self.type .brightness)

/-- The method `LED::setBreath`. -/
def LED.setBreath (u : Utils) (self : LED) (value : Nat) (tr : Trace) : Bool × Trace :=
  writeToFile u (.led self.type (if self.mBreath then .breath else .blink)) (.int value) tr

/-- The constant `kRampSteps` of `LED::setTimed`. -/
def kRampSteps : Int := 16

/-- The constant `kRampMaxStepDurationMs` of `LED::setTimed`. -/
def kRampMaxStepDurationMs : Int := 15

/-- The term `i * 512 * brightness / (255 * kRampSteps)` of the lambda
`getScaledDutyPercent`, in `int` arithmetic (division truncates towards zero).
Signed overflow is rendered as wrap-around; for a brightness up to 255 no
intermediate result leaves the range of `int`. -/
def scaledDuty (brightness : Int) (i : Int) : Int :=
  toInt32 (Int.tdiv (toInt32 (toInt32 (i * 512) * brightness)) (toInt32 (255 * kRampSteps)))

/-- The loop body of `getScaledDutyPercent` for one `i`. -/
def getScaledDutyPercent.step (brightness : Int) (output : String) (i : Nat) : String :=
  let output := if i ≠ 0 then output ++ "," else output
  output ++ toString (scaledDuty brightness i)

/-- The lambda `getScaledDutyPercent` of `LED::setTimed`: the loop runs over
`i = 0, ..., kRampSteps`. -/
def getScaledDutyPercent (brightness : Int) : String :=
  (List.range (kRampSteps.toNat + 1)).foldl (getScaledDutyPercent.step brightness) ""

/-- The numbers `getScaledDutyPercent` prints, in order: the duty-cycle table. -/
def dutyEntries (brightness : Int) : List Int :=
  (List.range (kRampSteps.toNat + 1)).map (fun i : Nat => scaledDuty brightness i)

/-- The locals `pauseLo`, `pauseHi`, `stepDuration` of `LED::setTimed`. -/
structure RampTiming where
  pauseLo : Int
  pauseHi : Int
  stepDuration : Int
  deriving DecidableEq, Repr

/-- The branch of `LED::setTimed` that sets `stepDuration`, `pauseHi`, `pauseLo`.
The comparison and the arithmetic mix `int` constants with `uint32_t` arguments and
are therefore unsigned; the results are stored in `int` variables. -/
def LED.setTimed.timing (onMs offMs : Nat) : RampTiming :=
  if u32 (kRampMaxStepDurationMs * kRampSteps).toNat > onMs then
    { stepDuration := toInt32 (onMs / u32 kRampSteps.toNat : Nat)
      pauseHi := 0
      pauseLo := toInt32 offMs }
  else
    let stepDuration : Int := kRampMaxStepDurationMs
    { stepDuration := stepDuration
      pauseHi := toInt32 (((onMs : Int) - toInt32 (kRampSteps * stepDuration)) % 2 ^ 32)
      pauseLo := toInt32 (((offMs : Int) - toInt32 (kRampSteps * stepDuration)) % 2 ^ 32) }

/-- The local `start_idx` of `LED::setTimed`. -/
def LED.setTimed.start_idx (idx : Nat) : Int :=
  if idx ≠ 0 then toInt32 (((kRampSteps + 1) * (idx : Int)) % 2 ^ 32) else 0

/-- The operator `&&` on calls that write: the right operand runs only when the
left one returned true. -/
def andAlso (left : Bool × Trace) (right : Trace → Bool × Trace) : Bool × Trace :=
  if left.1 then right left.2 else (false, left.2)

/-- The six writes of the `return` statement of `LED::setTimed`, in order. -/
def LED.setTimed.writes (self : LED) (value onMs offMs idx : Nat) : List (Node × Val) :=
  [(.led self.type .start_idx, .int (LED.setTimed.start_idx idx)),
   (.led self.type .duty_pcts, .str (getScaledDutyPercent (toInt32 value))),
   (.led self.type .pause_lo, .int (LED.setTimed.timing onMs offMs).pauseLo),
   (.led self.type .pause_hi, .int (LED.setTimed.timing onMs offMs).pauseHi),
   (.led self.type .ramp_step_ms, .int (LED.setTimed.timing onMs offMs).stepDuration),
   (.led self.type .blink, .int 1)]

/-- The method `LED::setTimed`. -/
def LED.setTimed (u : Utils) (self : LED) (value onMs offMs idx : Nat) (tr : Trace) :
    Bool × Trace :=
  if self.mBreath then (false, tr)
  else
    let t := LED.setTimed.timing onMs offMs
    let start_idx := LED.setTimed.start_idx idx
    andAlso (andAlso (andAlso (andAlso (andAlso
      (writeToFile u (.led self.type .start_idx) (.int start_idx) tr)
      (writeToFile u (.led self.type .duty_pcts)
        (.str (getScaledDutyPercent (toInt32 value)))))
      (writeToFile u (.led self.type .pause_lo) (.int t.pauseLo)))
      (writeToFile u (.led self.type .pause_hi) (.int t.pauseHi)))
      (writeToFile u (.led self.type .ramp_step_ms) (.int t.stepDuration)))
      (writeToFile u (.led self.type .blink) (.int 1))

/-- The method `LED::setBrightness`: `value * mMaxBrightness / 0xFF` in `uint32_t`. -/
def LED.setBrightness (u : Utils) (self : LED) (value : Nat) (tr : Trace) : Bool × Trace :=
  writeToFile u (.led self.type .brightness) (.int (u32 (value * self.mMaxBrightness) / 0xFF : Nat)) tr

/-! ## `Lights.h` and `Lights.cpp` -/

/-- The array `kAllBacklightPaths`. -/
def kAllBacklightPaths : List String :=
  ["/sys/class/backlight/panel0-backlight/brightness",
   "/sys/class/leds/lcd-backlight/brightness"]

/-- The array `kAllButtonsPaths`. -/
def kAllButtonsPaths : List String :=
  ["/sys/class/leds/button-backlight/brightness",
   "/sys/class/leds/button-backlight1/brightness"]

/-- The constant `kMaxBacklightPath`. -/
def kMaxBacklightPath : String := "/sys/class/leds/lcd-backlight/max_brightness"

/-- The static array `kLEDs`, indexed by `led_type`. -/
def kLEDs (u : Utils) (t : led_type) : LED := LED.new u t

/-- The member `mLastLightStates`, a `std::array<HwLightState, MAX_STATES>`:
three elements, in the order of the enum `light_states`. -/
structure LastLightStates where
  notification : HwLightState
  attention : HwLightState
  battery : HwLightState
  deriving DecidableEq, Repr

/-- The elements in iteration order. -/
def LastLightStates.toList (a : LastLightStates) : List HwLightState :=
  [a.notification, a.attention, a.battery]

/-- The assignment `a.at(i) = v`; `at` throws `std::out_of_range` (`none`) when
`i` is not below the size of the array. -/
def LastLightStates.atPut (a : LastLightStates) (i : Nat) (v : HwLightState) :
    Option LastLightStates :=
  match i with
  | 0 => some { a with notification := v }
  | 1 => some { a with attention := v }
  | 2 => some { a with battery := v }
  | _ => none

/-- The data members of the class `Lights`; `mLights` holds the `LightType` of each
advertised light. -/
structure Lights where
  mLights : List Int
  mBacklightPath : String
  mButtonsPaths : List String
  mWhiteLED : Bool
  mLastLightStates : LastLightStates
  deriving DecidableEq, Repr

/-- The constructor `Lights::Lights()`. -/
def Lights.new (u : Utils) : Lights :=
  let backlight := kAllBacklightPaths.find? (fun p => u.fileWriteable (.file p))
  let mButtonsPaths := kAllButtonsPaths.filter (fun p => u.fileWriteable (.file p))
  { mLights :=
      (if backlight.isSome then [LightType.BACKLIGHT] else [])
        ++ (if !mButtonsPaths.isEmpty then [LightType.BUTTONS] else [])
        ++ [LightType.BATTERY, LightType.NOTIFICATIONS, LightType.ATTENTION]
    mBacklightPath := backlight.getD ""
    mButtonsPaths := mButtonsPaths
    mWhiteLED := (kLEDs u .WHITE).exists u
    mLastLightStates :=
      ⟨HwLightState.default, HwLightState.default, HwLightState.default⟩ }

/-- The statements of `Lights::setLED` under the comment `Disable current
blinking`. -/
def Lights.setLED.disable (u : Utils) (self : Lights) (tr : Trace) : Trace :=
  if self.mWhiteLED then
    ((kLEDs u .WHITE).setBreath u 0 tr).2
  else
    let tr := ((kLEDs u .RED).setBreath u 0 tr).2
    let tr := ((kLEDs u .GREEN).setBreath u 0 tr).2
    ((kLEDs u .BLUE).setBreath u 0 tr).2

/-- The statements of `Lights::setLED` under `case FlashMode::HARDWARE` and
`case FlashMode::TIMED`, up to the test of `rc`; the result is the final `rc`. -/
def Lights.setLED.breathe (u : Utils) (self : Lights) (color : argb_t) (blink : Nat)
    (rc : Bool) (tr : Trace) : Bool × Trace :=
  if self.mWhiteLED then
    (kLEDs u .WHITE).setBreath u blink tr
  else
    let r : Bool × Trace :=
      if color.red ≠ 0 then
        let w := (kLEDs u .RED).setBreath u blink tr
        (rc && w.1, w.2)
      else (rc, tr)
    let r : Bool × Trace :=
      if color.green ≠ 0 then
        let w := (kLEDs u .GREEN).setBreath u blink r.2
        (r.1 && w.1, w.2)
      else r
    if color.blue ≠ 0 then
      let w := (kLEDs u .BLUE).setBreath u blink r.2
      (r.1 && w.1, w.2)
    else r

/-- The statements of `Lights::setLED` under `default:`. -/
def Lights.setLED.steady (u : Utils) (self : Lights) (state : HwLightState) (color : argb_t)
    (tr : Trace) : Trace :=
  if self.mWhiteLED then
    ((kLEDs u .WHITE).setBrightness u (u32 (u.colorToBrightness state.color)) tr).2
  else
    let tr := ((kLEDs u .RED).setBrightness u color.red tr).2
    let tr := ((kLEDs u .GREEN).setBrightness u color.green tr).2
    ((kLEDs u .BLUE).setBrightness u color.blue tr).2

/-- The method `Lights::setLED`. -/
def Lights.setLED (u : Utils) (self : Lights) (state : HwLightState) (tr : Trace) : Trace :=
  let rc := true
  let color := colorToArgb state.color
  let blink : Nat := if state.flashOnMs ≠ 0 ∧ state.flashOffMs ≠ 0 then 1 else 0
  let tr := Lights.setLED.disable u self tr
  match state.flashMode with
  | .HARDWARE | .TIMED =>
    let r := Lights.setLED.breathe u self color blink rc tr
    if r.1 then r.2 else Lights.setLED.steady u self state color r.2
  | _ => Lights.setLED.steady u self state color tr

/-- The loop of `Lights::setLEDState` over `mLastLightStates`: the first element
whose color is lit replaces `activeState` and ends the loop. -/
def Lights.setLEDState.scan (activeState : HwLightState) : List HwLightState → HwLightState
  | [] => activeState
  | lightState :: rest =>
    if isLit lightState.color then lightState
    else Lights.setLEDState.scan activeState rest

/-- The method `Lights::setLEDState`; the mutex has no effect on a single call. -/
def Lights.setLEDState (u : Utils) (self : Lights) (state : HwLightState) (idx : light_states)
    (tr : Trace) : Option (Lights × Trace) :=
  let activeState := HwLightState.default
  let stored : Option LastLightStates :=
    if idx.toNat < light_states.MAX_STATES.toNat then
      self.mLastLightStates.atPut idx.toNat state
    else some self.mLastLightStates
  match stored with
  | none => none
  | some a =>
    let self := { self with mLastLightStates := a }
    let activeState := Lights.setLEDState.scan activeState self.mLastLightStates.toList
    some (self, self.setLED u activeState tr)

/-- The statements of `Lights::setLightState` from the label `case ATTENTION` on. -/
def Lights.setLightState.caseAttention (u : Utils) (self : Lights) (state : HwLightState)
    (state_idx : light_states) (tr : Trace) : Option (Lights × Trace) :=
  let state_idx := if state_idx = .MAX_STATES then .ATTENTION_STATE else state_idx
  self.setLEDState u state state_idx tr

/-- The statements of `Lights::setLightState` from the label `case NOTIFICATIONS` on
(they fall through into `case ATTENTION`). -/
def Lights.setLightState.caseNotifications (u : Utils) (self : Lights) (state : HwLightState)
    (state_idx : light_states) (tr : Trace) : Option (Lights × Trace) :=
  let state_idx := if state_idx = .MAX_STATES then .NOTIFICATION_STATE else state_idx
  Lights.setLightState.caseAttention u self state state_idx tr

/-- The statements of `Lights::setLightState` from the label `case BATTERY` on
(they fall through into `case NOTIFICATIONS`). -/
def Lights.setLightState.caseBattery (u : Utils) (self : Lights) (state : HwLightState)
    (state_idx : light_states) (tr : Trace) : Option (Lights × Trace) :=
  let state_idx := if state_idx = .MAX_STATES then .BATTERY_STATE else state_idx
  Lights.setLightState.caseNotifications u self state state_idx tr

/-- The value `setLightState` writes to the backlight for a brightness
`newBrightness` and a panel maximum `maxBrightness`, in `uint32_t` arithmetic. -/
def Lights.setLightState.scaleBacklight (newBrightness maxBrightness : Nat) : Nat :=
  if newBrightness > 0 ∧ maxBrightness ≠ 255 then
    u32 (u32 (u32 (u32 (maxBrightness + 2 ^ 32 - 1) * u32 (newBrightness + 2 ^ 32 - 1)) / 254) + 1)
  else newBrightness

/-- The loop of `case BUTTONS` over `mButtonsPaths`. -/
def Lights.setLightState.buttons (u : Utils) (lit : Bool) : List String → Trace → Trace
  | [], tr => tr
  | buttons :: rest, tr =>
    Lights.setLightState.buttons u lit rest
      (writeToFile u (.file buttons) (.int (if lit then 1 else 0)) tr).2

/-- The `switch (type)` of `Lights::setLightState` and the `return` after it. -/
def Lights.setLightState.switch (u : Utils) (self : Lights) (type : Int) (state : HwLightState)
    (tr : Trace) : Option (ScopedAStatus × Lights × Trace) :=
  let state_idx := light_states.MAX_STATES
  if type = LightType.BACKLIGHT then
    if self.mBacklightPath ≠ "" then
      let newBrightness := u32 (u.colorToBrightness state.color)
      let maxBrightness :=
        match u.readFromFile (.file kMaxBacklightPath) with
        | some m => u32 m
        | none => 255
      let newBrightness := Lights.setLightState.scaleBacklight newBrightness maxBrightness
      some (.ok, self, (writeToFile u (.file self.mBacklightPath) (.int newBrightness) tr).2)
    else some (.ok, self, tr)
  else if type = LightType.BUTTONS then
    some (.ok, self, Lights.setLightState.buttons u (isLit state.color) self.mButtonsPaths tr)
  else if type = LightType.BATTERY then
    (Lights.setLightState.caseBattery u self state state_idx tr).map (fun r => (.ok, r))
  else if type = LightType.NOTIFICATIONS then
    (Lights.setLightState.caseNotifications u self state state_idx tr).map (fun r => (.ok, r))
  else if type = LightType.ATTENTION then
    (Lights.setLightState.caseAttention u self state state_idx tr).map (fun r => (.ok, r))
  else
    some (.fromExceptionCode EX_UNSUPPORTED_OPERATION, self, tr)

/-- The method `Lights::setLightState`: `id` is an `int32_t`, and
`static_cast<LightType>(id)` converts it to the byte-backed enum, keeping its low
byte; the switch runs on the converted value. -/
def Lights.setLightState (u : Utils) (self : Lights) (id : Int) (state : HwLightState)
    (tr : Trace) : Option (ScopedAStatus × Lights × Trace) :=
  let type := toInt8 id
  Lights.setLightState.switch u self type state tr

/-! ## Definitions used to state the properties -/

/-- The lookup table the spec asks for in place of the fallthrough switch:
BATTERY -> BATTERY_STATE, NOTIFICATIONS -> NOTIFICATION_STATE,
ATTENTION -> ATTENTION_STATE, and no slot for any other light. -/
def spec_slotTable (id : Int) : Option light_states :=
  if id = LightType.BATTERY then some .BATTERY_STATE
  else if id = LightType.NOTIFICATIONS then some .NOTIFICATION_STATE
  else if id = LightType.ATTENTION then some .ATTENTION_STATE
  else none

/-- An environment in which every write succeeds, no file is readable or
writeable at construction, and brightness is the usual weighted sum. -/
def Utils.allOk : Utils :=
  { writeResult := fun _ _ _ => true
    readFromFile := fun _ => none
    fileWriteable := fun _ => false
    colorToBrightness := fun c =>
      (77 * (colorToArgb c).red + 150 * (colorToArgb c).green + 29 * (colorToArgb c).blue) / 256 }

/-- The spec's notion of a requested blink: flash mode TIMED or HARDWARE with a
positive on time and a positive off time. -/
def spec_blinkRequested (state : HwLightState) : Prop :=
  (state.flashMode = .TIMED ∨ state.flashMode = .HARDWARE) ∧
    0 < state.flashOnMs ∧ 0 < state.flashOffMs

instance (state : HwLightState) : Decidable (spec_blinkRequested state) := by
  unfold spec_blinkRequested
  infer_instance

/-- A lit state that asks for a blink: red, TIMED, 500 ms on and 500 ms off. -/
def HwLightState.redBlink : HwLightState :=
  { color := 0xFF0000, flashMode := .TIMED, flashOnMs := 500, flashOffMs := 500,
    brightnessMode := .USER }

/-- A lit state in TIMED mode with on and off time 0: red. -/
def HwLightState.redTimedZero : HwLightState :=
  { color := 0xFF0000, flashMode := .TIMED, flashOnMs := 0, flashOffMs := 0,
    brightnessMode := .USER }

/-- A lit steady state: red, flash mode NONE. -/
def HwLightState.redSteady : HwLightState :=
  { color := 0xFF0000, flashMode := .NONE, flashOnMs := 0, flashOffMs := 0,
    brightnessMode := .USER }

/-- A red LED channel with maximum brightness 255 and no hardware breath. -/
def LED.redNoBreath : LED := { type := .RED, mMaxBrightness := 255, mBreath := false }

/-! ## Reading the write log -/

/-- The file and the value of a logged write. -/
def Event.write (e : Event) : Node × Val := (e.node, e.val)

/-- The channel a logged write goes to, `none` for a plain path. -/
def Event.channel (e : Event) : Option led_type :=
  match e.node with
  | .led t _ => some t
  | .file _ => none

/-- The attribute a logged write goes to, `none` for a plain path. -/
def Event.attr (e : Event) : Option LedAttr :=
  match e.node with
  | .led _ a => some a
  | .file _ => none

/-- The write a call `setBreath(value)` issues on channel `t`. -/
def breathWrite (u : Utils) (t : led_type) (value : Nat) : Node × Val :=
  (.led t (if (kLEDs u t).mBreath then .breath else .blink), .int value)

/-- The write a call `setBrightness(value)` issues on channel `t`. -/
def brightnessWrite (u : Utils) (t : led_type) (value : Nat) : Node × Val :=
  (.led t .brightness, .int (u32 (value * (kLEDs u t).mMaxBrightness) / 255 : Nat))

/-- The channels `setLED` drives: white alone when the white LED is present,
otherwise red, green and blue. -/
def Lights.channels (self : Lights) : List led_type :=
  if self.mWhiteLED then [.WHITE] else [.RED, .GREEN, .BLUE]

/-- The writes `setLED` issues to switch breath off. -/
def disableWrites (u : Utils) (self : Lights) : List (Node × Val) :=
  if self.mWhiteLED then [breathWrite u .WHITE 0]
  else [breathWrite u .RED 0, breathWrite u .GREEN 0, breathWrite u .BLUE 0]

/-- The writes `setLED` issues when it calls `setBreath(blink)` on the lit channels. -/
def breathWrites (u : Utils) (self : Lights) (color : argb_t) (blink : Nat) :
    List (Node × Val) :=
  if self.mWhiteLED then [breathWrite u .WHITE blink]
  else
    (if color.red ≠ 0 then [breathWrite u .RED blink] else []) ++
    (if color.green ≠ 0 then [breathWrite u .GREEN blink] else []) ++
    (if color.blue ≠ 0 then [breathWrite u .BLUE blink] else [])

/-- The writes `setLED` issues on the steady path. -/
def steadyWrites (u : Utils) (self : Lights) (state : HwLightState) : List (Node × Val) :=
  if self.mWhiteLED then
    [brightnessWrite u .WHITE (u32 (u.colorToBrightness state.color))]
  else
    [brightnessWrite u .RED (colorToArgb state.color).red,
     brightnessWrite u .GREEN (colorToArgb state.color).green,
     brightnessWrite u .BLUE (colorToArgb state.color).blue]

/-- What a chain of `&&`-joined writes of the list `plan` leaves behind. -/
def ShortCircuit (tr : Trace) (plan : List (Node × Val)) (r : Bool × Trace) : Prop :=
  ∃ new : Trace, r.2 = tr ++ new ∧
    (∃ k, new.map Event.write = plan.take k) ∧
    (r.1 = true → new.map Event.write = plan ∧ ∀ e ∈ new, e.ok = true) ∧
    (r.1 = false → ∃ (pre : Trace) (e : Event), new = pre ++ [e] ∧ e.ok = false ∧
      ∀ x ∈ pre, x.ok = true)

/-- Every entry of `new`, logged after `tr`, carries the answer the device gave to
that write at that point of the log. -/
def answered (u : Utils) : Trace → Trace → Bool
  | _, [] => true
  | tr, e :: rest => (e.ok == u.writeResult tr e.node e.val) && answered u (tr ++ [e]) rest

/-- A red LED channel with maximum brightness 255 and hardware breath. -/
def LED.redBreath : LED := { type := .RED, mMaxBrightness := 255, mBreath := true }

/-- A red LED channel with maximum brightness 128 and no hardware breath. -/
def LED.red128 : LED := { type := .RED, mMaxBrightness := 128, mBreath := false }

/-- A red LED channel whose `max_brightness` reads 16843010, without hardware
breath. -/
def LED.redMax16843010 : LED :=
  { type := .RED, mMaxBrightness := 16843010, mBreath := false }

/-- The object after `state` has been stored in the slot `idx` of
`mLastLightStates` (none for `MAX_STATES`). -/
def Lights.withSlot (self : Lights) (idx : light_states) (state : HwLightState) : Lights :=
  { self with
    mLastLightStates :=
      match idx with
      | .NOTIFICATION_STATE => { self.mLastLightStates with notification := state }
      | .ATTENTION_STATE => { self.mLastLightStates with attention := state }
      | .BATTERY_STATE => { self.mLastLightStates with battery := state }
      | .MAX_STATES => self.mLastLightStates }

/-! ## The arbiter: `setLEDState` and `setLightState` -/

/-- C1. For every content of the three slots and every update `(state, idx)`,
`setLEDState` stores the state in the slot (no slot for `MAX_STATES`) and then
programs, through `setLED`, the first of the slots NOTIFICATION, ATTENTION,
BATTERY whose color is lit, and the all-off default state (color 0, flash mode
NONE, on and off time 0) when none is lit. -/
theorem setLEDState_programs_first_lit (u : Utils) (self : Lights) (state : HwLightState)
    (idx : light_states) (tr : Trace) :
    ∃ self' : Lights,
      self' = { self with
        mLastLightStates :=
          match idx with
          | .NOTIFICATION_STATE => { self.mLastLightStates with notification := state }
          | .ATTENTION_STATE => { self.mLastLightStates with attention := state }
          | .BATTERY_STATE => { self.mLastLightStates with battery := state }
          | .MAX_STATES => self.mLastLightStates } ∧
      self.setLEDState u state idx tr =
        some (self', self'.setLED u
          (if isLit self'.mLastLightStates.notification.color then
              self'.mLastLightStates.notification
            else if isLit self'.mLastLightStates.attention.color then
              self'.mLastLightStates.attention
            else if isLit self'.mLastLightStates.battery.color then
              self'.mLastLightStates.battery
            else
              { color := 0, flashMode := .NONE, flashOnMs := 0, flashOffMs := 0,
                brightnessMode := .USER }) tr) := by
  refine ⟨_, rfl, ?_⟩
  cases idx <;>
    simp [Lights.setLEDState, light_states.toNat, LastLightStates.atPut,
      LastLightStates.toList, Lights.setLEDState.scan, HwLightState.default]

/-- The slot array after `setLEDState` has stored `state` at `idx`. -/
theorem setLEDState_slots (u : Utils) (self : Lights) (state : HwLightState)
    (idx : light_states) (tr : Trace) :
    ∃ tr', self.setLEDState u state idx tr =
      some ({ self with
        mLastLightStates :=
          match idx with
          | .NOTIFICATION_STATE => { self.mLastLightStates with notification := state }
          | .ATTENTION_STATE => { self.mLastLightStates with attention := state }
          | .BATTERY_STATE => { self.mLastLightStates with battery := state }
          | .MAX_STATES => self.mLastLightStates }, tr') := by
  cases idx <;> simp [Lights.setLEDState, light_states.toNat, LastLightStates.atPut]

/-- The table decomposes into its three rows. -/
theorem spec_slotTable_rows {id : Int} {slot : light_states}
    (h : spec_slotTable id = some slot) :
    (id = LightType.BATTERY ∧ slot = .BATTERY_STATE) ∨
    (id = LightType.NOTIFICATIONS ∧ slot = .NOTIFICATION_STATE) ∨
    (id = LightType.ATTENTION ∧ slot = .ATTENTION_STATE) := by
  unfold spec_slotTable at h
  split_ifs at h with h3 h4 h5
  · exact Or.inl ⟨h3, (Option.some.inj h).symm⟩
  · exact Or.inr (Or.inl ⟨h4, (Option.some.inj h).symm⟩)
  · exact Or.inr (Or.inr ⟨h5, (Option.some.inj h).symm⟩)

/-- An integer in the range of `int8_t` is its own low byte. -/
theorem toInt8_of_byte {x : Int} (h0 : -128 ≤ x) (h1 : x < 128) : toInt8 x = x := by
  unfold toInt8
  norm_num
  omega

/-- For an id in the range of `int8_t` the cast changes nothing. -/
theorem setLightState_byte (u : Utils) (self : Lights) (id : Int) (state : HwLightState)
    (tr : Trace) (h0 : -128 ≤ id) (h1 : id < 128) :
    self.setLightState u id state tr = Lights.setLightState.switch u self id state tr := by
  unfold Lights.setLightState
  rw [toInt8_of_byte h0 h1]

/-- The three LED cases of the switch, each as one call of `setLEDState`. -/
theorem switch_led_cases (u : Utils) (self : Lights) (state : HwLightState)
    (tr : Trace) :
    Lights.setLightState.switch u self LightType.BATTERY state tr =
        (self.setLEDState u state .BATTERY_STATE tr).map (fun r => (.ok, r)) ∧
    Lights.setLightState.switch u self LightType.NOTIFICATIONS state tr =
        (self.setLEDState u state .NOTIFICATION_STATE tr).map (fun r => (.ok, r)) ∧
    Lights.setLightState.switch u self LightType.ATTENTION state tr =
        (self.setLEDState u state .ATTENTION_STATE tr).map (fun r => (.ok, r)) := by
  simp [Lights.setLightState.switch, LightType.BUTTONS, LightType.BACKLIGHT, LightType.BATTERY,
    LightType.NOTIFICATIONS, LightType.ATTENTION, Lights.setLightState.caseBattery,
    Lights.setLightState.caseNotifications, Lights.setLightState.caseAttention]

/-- The three LED ids, each as one call of `setLEDState`. -/
theorem setLightState_led_cases (u : Utils) (self : Lights) (state : HwLightState)
    (tr : Trace) :
    self.setLightState u LightType.BATTERY state tr =
        (self.setLEDState u state .BATTERY_STATE tr).map (fun r => (.ok, r)) ∧
    self.setLightState u LightType.NOTIFICATIONS state tr =
        (self.setLEDState u state .NOTIFICATION_STATE tr).map (fun r => (.ok, r)) ∧
    self.setLightState u LightType.ATTENTION state tr =
        (self.setLEDState u state .ATTENTION_STATE tr).map (fun r => (.ok, r)) := by
  obtain ⟨h3, h4, h5⟩ := switch_led_cases u self state tr
  refine ⟨?_, ?_, ?_⟩
  · rw [setLightState_byte _ _ _ _ _ (by decide) (by decide)]; exact h3
  · rw [setLightState_byte _ _ _ _ _ (by decide) (by decide)]; exact h4
  · rw [setLightState_byte _ _ _ _ _ (by decide) (by decide)]; exact h5

/-- The default case of the switch. -/
theorem switch_default_case (u : Utils) (self : Lights) (type : Int)
    (state : HwLightState) (tr : Trace)
    (h : type ≠ LightType.BACKLIGHT ∧ type ≠ LightType.BUTTONS ∧ type ≠ LightType.BATTERY ∧
      type ≠ LightType.NOTIFICATIONS ∧ type ≠ LightType.ATTENTION) :
    Lights.setLightState.switch u self type state tr =
      some (.fromExceptionCode EX_UNSUPPORTED_OPERATION, self, tr) := by
  obtain ⟨h0, h2, h3, h4, h5⟩ := h
  simp [Lights.setLightState.switch, h0, h2, h3, h4, h5]

/-- On each of the five known light types the switch ends in ok. -/
theorem switch_known_case (u : Utils) (self : Lights) (type : Int)
    (state : HwLightState) (tr : Trace)
    (h : type = LightType.BACKLIGHT ∨ type = LightType.BUTTONS ∨ type = LightType.BATTERY ∨
      type = LightType.NOTIFICATIONS ∨ type = LightType.ATTENTION) :
    ∃ (self' : Lights) (tr' : Trace),
      Lights.setLightState.switch u self type state tr = some (.ok, self', tr') := by
  obtain ⟨h3, h4, h5⟩ := switch_led_cases u self state tr
  rcases h with h | h | h | h | h
  · subst h
    by_cases hp : self.mBacklightPath = "" <;> simp [Lights.setLightState.switch, hp]
  · subst h
    simp [Lights.setLightState.switch, LightType.BUTTONS, LightType.BACKLIGHT]
  · subst h
    obtain ⟨t, ht⟩ := setLEDState_slots u self state .BATTERY_STATE tr
    exact ⟨_, t, by rw [h3, ht]; rfl⟩
  · subst h
    obtain ⟨t, ht⟩ := setLEDState_slots u self state .NOTIFICATION_STATE tr
    exact ⟨_, t, by rw [h4, ht]; rfl⟩
  · subst h
    obtain ⟨t, ht⟩ := setLEDState_slots u self state .ATTENTION_STATE tr
    exact ⟨_, t, by rw [h5, ht]; rfl⟩

/-- What `setLightState` does by the low byte of the id: unsupported-operation,
no write and an unchanged object exactly when `static_cast<LightType>(id)` is
none of BACKLIGHT, BUTTONS, BATTERY, NOTIFICATIONS, ATTENTION, and ok otherwise.
The call never throws. -/
theorem setLightState_status_by_low_byte (u : Utils) (self : Lights) (id : Int)
    (state : HwLightState) (tr : Trace) :
    ∃ (st : ScopedAStatus) (self' : Lights) (tr' : Trace),
      self.setLightState u id state tr = some (st, self', tr') ∧
      (st = .fromExceptionCode EX_UNSUPPORTED_OPERATION ↔
        (toInt8 id ≠ LightType.BACKLIGHT ∧ toInt8 id ≠ LightType.BUTTONS ∧
          toInt8 id ≠ LightType.BATTERY ∧ toInt8 id ≠ LightType.NOTIFICATIONS ∧
          toInt8 id ≠ LightType.ATTENTION)) ∧
      ((toInt8 id ≠ LightType.BACKLIGHT ∧ toInt8 id ≠ LightType.BUTTONS ∧
          toInt8 id ≠ LightType.BATTERY ∧ toInt8 id ≠ LightType.NOTIFICATIONS ∧
          toInt8 id ≠ LightType.ATTENTION) →
        tr' = tr ∧ self' = self) ∧
      ((toInt8 id = LightType.BACKLIGHT ∨ toInt8 id = LightType.BUTTONS ∨
          toInt8 id = LightType.BATTERY ∨ toInt8 id = LightType.NOTIFICATIONS ∨
          toInt8 id = LightType.ATTENTION) → st = .ok) := by
  unfold Lights.setLightState
  generalize toInt8 id = type
  by_cases hk : type = LightType.BACKLIGHT ∨ type = LightType.BUTTONS ∨
      type = LightType.BATTERY ∨ type = LightType.NOTIFICATIONS ∨ type = LightType.ATTENTION
  · obtain ⟨s', t', e⟩ := switch_known_case u self type state tr hk
    refine ⟨.ok, s', t', e, ⟨fun hc => (by cases hc), fun hn => ?_⟩, fun hn => ?_,
      fun _ => rfl⟩
    · exfalso; tauto
    · exfalso; tauto
  · have hn : type ≠ LightType.BACKLIGHT ∧ type ≠ LightType.BUTTONS ∧
        type ≠ LightType.BATTERY ∧ type ≠ LightType.NOTIFICATIONS ∧
        type ≠ LightType.ATTENTION := by
      refine ⟨fun h => hk ?_, fun h => hk ?_, fun h => hk ?_, fun h => hk ?_, fun h => hk ?_⟩ <;>
        simp [h]
    exact ⟨_, self, tr, switch_default_case u self type state tr hn,
      ⟨fun _ => hn, fun _ => rfl⟩, fun _ => ⟨rfl, rfl⟩, fun h => absurd h hk⟩

/-- C2, evaluation at a failing input: the id 259 is none of BACKLIGHT, BUTTONS,
BATTERY, NOTIFICATIONS, ATTENTION, but `static_cast<LightType>(259)` keeps its low
byte 3 = BATTERY: on a device without a white LED where every write succeeds,
`setLightState(259, steady red)` returns ok, stores the state in the battery slot
and issues six LED writes. -/
theorem setLightState_259_is_battery :
    (259 : Int) ≠ LightType.BACKLIGHT ∧ (259 : Int) ≠ LightType.BUTTONS ∧
    (259 : Int) ≠ LightType.BATTERY ∧ (259 : Int) ≠ LightType.NOTIFICATIONS ∧
    (259 : Int) ≠ LightType.ATTENTION ∧
    toInt8 259 = LightType.BATTERY ∧
    (Lights.new Utils.allOk).setLightState Utils.allOk 259 HwLightState.redSteady [] =
      some (.ok,
        (Lights.new Utils.allOk).withSlot .BATTERY_STATE HwLightState.redSteady,
        [⟨.led .RED .blink, .int 0, true⟩, ⟨.led .GREEN .blink, .int 0, true⟩,
         ⟨.led .BLUE .blink, .int 0, true⟩, ⟨.led .RED .brightness, .int 255, true⟩,
         ⟨.led .GREEN .brightness, .int 0, true⟩, ⟨.led .BLUE .brightness, .int 0, true⟩]) ∧
    ((Lights.new Utils.allOk).withSlot .BATTERY_STATE HwLightState.redSteady).mLastLightStates
      ≠ (Lights.new Utils.allOk).mLastLightStates := by
  decide

/-- C3. The fallthrough switch of `setLightState` agrees with the lookup table
`spec_slotTable`: for an id the table maps to `slot`, the call is ok and is the
call `setLEDState(state, slot)`; `slot` is below `MAX_STATES`; the state is stored
at exactly that index of the slot array and every other index keeps its element;
and for every id whatsoever the call returns, so the bounds-checked access
`mLastLightStates.at(idx)` never throws. -/
theorem setLightState_refines_slotTable (u : Utils) (self : Lights) (id : Int)
    (state : HwLightState) (tr : Trace) (slot : light_states)
    (h : spec_slotTable id = some slot) :
    slot.toNat < light_states.MAX_STATES.toNat ∧
    (∃ (self' : Lights) (tr' : Trace),
      self.setLightState u id state tr = some (.ok, self', tr') ∧
      self.setLEDState u state slot tr = some (self', tr') ∧
      self.mLastLightStates.atPut slot.toNat state = some self'.mLastLightStates ∧
      self'.mLastLightStates.toList = self.mLastLightStates.toList.set slot.toNat state ∧
      self'.mLastLightStates.toList[slot.toNat]? = some state ∧
      (∀ j : Nat, j ≠ slot.toNat →
        self'.mLastLightStates.toList[j]? = self.mLastLightStates.toList[j]?)) ∧
    (∀ (id' : Int) (state' : HwLightState) (self₀ : Lights) (tr₀ : Trace),
      (self₀.setLightState u id' state' tr₀).isSome = true) := by
  obtain ⟨h3, h4, h5⟩ := setLightState_led_cases u self state tr
  refine ⟨?_, ?_, ?_⟩
  · rcases spec_slotTable_rows h with ⟨-, rfl⟩ | ⟨-, rfl⟩ | ⟨-, rfl⟩ <;> decide
  · obtain ⟨t, ht⟩ := setLEDState_slots u self state slot tr
    refine ⟨_, t, ?_, ht, ?_, ?_, ?_, ?_⟩
    · rcases spec_slotTable_rows h with ⟨rfl, rfl⟩ | ⟨rfl, rfl⟩ | ⟨rfl, rfl⟩
      · rw [h3, ht]; rfl
      · rw [h4, ht]; rfl
      · rw [h5, ht]; rfl
    · rcases spec_slotTable_rows h with ⟨-, rfl⟩ | ⟨-, rfl⟩ | ⟨-, rfl⟩ <;>
        simp [light_states.toNat, LastLightStates.atPut]
    · rcases spec_slotTable_rows h with ⟨-, rfl⟩ | ⟨-, rfl⟩ | ⟨-, rfl⟩ <;>
        simp [light_states.toNat, LastLightStates.toList]
    · rcases spec_slotTable_rows h with ⟨-, rfl⟩ | ⟨-, rfl⟩ | ⟨-, rfl⟩ <;>
        simp [light_states.toNat, LastLightStates.toList]
    · intro j hj
      rcases spec_slotTable_rows h with ⟨-, rfl⟩ | ⟨-, rfl⟩ | ⟨-, rfl⟩ <;>
        simp [light_states.toNat, LastLightStates.toList] at hj ⊢ <;>
        rcases j with _ | _ | _ | j <;> simp_all
  · intro id' state' self₀ tr₀
    obtain ⟨st, s', t', e, -⟩ := setLightState_status_by_low_byte u self₀ id' state' tr₀
    simp [e]

/-- Witness for C3: the battery light goes to the battery slot. -/
theorem setLightState_refines_slotTable_witness :
    light_states.BATTERY_STATE.toNat < light_states.MAX_STATES.toNat ∧
    (∃ (self' : Lights) (tr' : Trace),
      (Lights.new Utils.allOk).setLightState Utils.allOk 3 ⟨0xFF0000, .NONE, 0, 0, .USER⟩ []
        = some (.ok, self', tr') ∧
      (Lights.new Utils.allOk).setLEDState Utils.allOk ⟨0xFF0000, .NONE, 0, 0, .USER⟩
        .BATTERY_STATE [] = some (self', tr') ∧
      (Lights.new Utils.allOk).mLastLightStates.atPut light_states.BATTERY_STATE.toNat
        ⟨0xFF0000, .NONE, 0, 0, .USER⟩ = some self'.mLastLightStates ∧
      self'.mLastLightStates.toList =
        (Lights.new Utils.allOk).mLastLightStates.toList.set light_states.BATTERY_STATE.toNat
          ⟨0xFF0000, .NONE, 0, 0, .USER⟩ ∧
      self'.mLastLightStates.toList[light_states.BATTERY_STATE.toNat]? =
        some ⟨0xFF0000, .NONE, 0, 0, .USER⟩ ∧
      (∀ j : Nat, j ≠ light_states.BATTERY_STATE.toNat →
        self'.mLastLightStates.toList[j]? =
          (Lights.new Utils.allOk).mLastLightStates.toList[j]?)) ∧
    (∀ (id' : Int) (state' : HwLightState) (self₀ : Lights) (tr₀ : Trace),
      (self₀.setLightState Utils.allOk id' state' tr₀).isSome = true) :=
  setLightState_refines_slotTable Utils.allOk (Lights.new Utils.allOk) 3
    ⟨0xFF0000, .NONE, 0, 0, .USER⟩ [] .BATTERY_STATE (by decide)

/-! ## Hardware programming: `setLED` -/

/-- The log after `setBreath`: one more entry, carrying the result of the call. -/
theorem setBreath_snd (u : Utils) (t : led_type) (value : Nat) (tr : Trace) :
    ((kLEDs u t).setBreath u value tr).2 =
      tr ++ [⟨(breathWrite u t value).1, (breathWrite u t value).2,
        ((kLEDs u t).setBreath u value tr).1⟩] :=
  rfl

/-- The log after `setBrightness`: one more entry, carrying the result of the call. -/
theorem setBrightness_snd (u : Utils) (t : led_type) (value : Nat) (tr : Trace) :
    ((kLEDs u t).setBrightness u value tr).2 =
      tr ++ [⟨(brightnessWrite u t value).1, (brightnessWrite u t value).2,
        ((kLEDs u t).setBrightness u value tr).1⟩] :=
  rfl

theorem setLED_disable_eq (u : Utils) (self : Lights) (tr : Trace) :
    ∃ dis : Trace, Lights.setLED.disable u self tr = tr ++ dis ∧
      dis.map Event.write = disableWrites u self := by
  simp only [Lights.setLED.disable, setBreath_snd]
  cases hw : self.mWhiteLED <;> simp [disableWrites, hw, Event.write]

theorem setLED_steady_eq (u : Utils) (self : Lights) (state : HwLightState) (tr : Trace) :
    ∃ st : Trace, Lights.setLED.steady u self state (colorToArgb state.color) tr = tr ++ st ∧
      st.map Event.write = steadyWrites u self state := by
  simp only [Lights.setLED.steady, setBrightness_snd]
  cases hw : self.mWhiteLED <;> simp [steadyWrites, hw, Event.write]

theorem setLED_breathe_eq (u : Utils) (self : Lights) (color : argb_t) (blink : Nat)
    (tr : Trace) :
    ∃ att : Trace, Lights.setLED.breathe u self color blink true tr
        = (att.all (fun e => e.ok), tr ++ att) ∧
      att.map Event.write = breathWrites u self color blink := by
  cases hw : self.mWhiteLED
  · simp only [Lights.setLED.breathe, hw, Prod.ext_iff, setBreath_snd]
    by_cases hr : color.red = 0 <;> by_cases hg : color.green = 0 <;>
      by_cases hb : color.blue = 0 <;> simp [breathWrites, hw, hr, hg, hb, Event.write]
    all_goals (refine ⟨_, ⟨?_, rfl⟩, ?_⟩ <;> simp [Event.write, Bool.and_assoc])
  · simp only [Lights.setLED.breathe, hw, if_true, Prod.ext_iff, setBreath_snd]
    refine ⟨_, ⟨?_, rfl⟩, ?_⟩ <;> simp [breathWrites, hw, Event.write]

/-- The shape of every run of `setLED`: the writes that switch breath off, then
(unless the flash mode is NONE) one `setBreath(blink)` per lit channel, then the
steady writes when the flash mode is NONE or one of those breath calls failed. -/
theorem setLED_shape (u : Utils) (self : Lights) (state : HwLightState) (tr : Trace) :
    ∃ dis att rest : Trace,
      self.setLED u state tr = tr ++ dis ++ att ++ rest ∧
      dis.map Event.write = disableWrites u self ∧
      att.map Event.write =
        (if state.flashMode = .NONE then []
          else breathWrites u self (colorToArgb state.color)
            (if state.flashOnMs ≠ 0 ∧ state.flashOffMs ≠ 0 then 1 else 0)) ∧
      rest.map Event.write =
        (if state.flashMode = .NONE ∨ ∃ e ∈ att, e.ok = false then steadyWrites u self state
          else []) := by
  obtain ⟨dis, hd, hdw⟩ := setLED_disable_eq u self tr
  obtain ⟨att, ha, haw⟩ := setLED_breathe_eq u self (colorToArgb state.color)
    (if state.flashOnMs ≠ 0 ∧ state.flashOffMs ≠ 0 then 1 else 0) (tr ++ dis)
  obtain ⟨st, hs, hsw⟩ := setLED_steady_eq u self state (tr ++ dis ++ att)
  obtain ⟨st0, hs0, hsw0⟩ := setLED_steady_eq u self state (tr ++ dis)
  have key : ∀ m : FlashMode, m ≠ .NONE → state.flashMode = m →
      ∃ dis att rest : Trace,
        (if (Lights.setLED.breathe u self (colorToArgb state.color)
              (if state.flashOnMs ≠ 0 ∧ state.flashOffMs ≠ 0 then 1 else 0) true
              (Lights.setLED.disable u self tr)).1 = true
          then (Lights.setLED.breathe u self (colorToArgb state.color)
              (if state.flashOnMs ≠ 0 ∧ state.flashOffMs ≠ 0 then 1 else 0) true
              (Lights.setLED.disable u self tr)).2
          else Lights.setLED.steady u self state (colorToArgb state.color)
            (Lights.setLED.breathe u self (colorToArgb state.color)
              (if state.flashOnMs ≠ 0 ∧ state.flashOffMs ≠ 0 then 1 else 0) true
              (Lights.setLED.disable u self tr)).2) = tr ++ dis ++ att ++ rest ∧
        dis.map Event.write = disableWrites u self ∧
        att.map Event.write =
          (if state.flashMode = .NONE then []
            else breathWrites u self (colorToArgb state.color)
              (if state.flashOnMs ≠ 0 ∧ state.flashOffMs ≠ 0 then 1 else 0)) ∧
        rest.map Event.write =
          (if state.flashMode = .NONE ∨ ∃ e ∈ att, e.ok = false then steadyWrites u self state
            else []) := by
    intro m hm hsm
    have hne : state.flashMode ≠ .NONE := by rw [hsm]; exact hm
    rw [hd, ha]
    by_cases hall : (att.all fun e => e.ok) = true
    · refine ⟨dis, att, [], by simp [hall], hdw, by simp [hne, haw], ?_⟩
      have : ¬ ∃ e ∈ att, e.ok = false := by
        rintro ⟨e, he, hf⟩
        have := List.all_eq_true.mp hall e he
        simp [hf] at this
      simp [hne, this]
    · refine ⟨dis, att, st, by simp only [hall, if_false, Bool.false_eq_true]; exact hs, hdw,
        by simp [hne, haw], ?_⟩
      have : ∃ e ∈ att, e.ok = false := by
        by_contra hc
        apply hall
        rw [List.all_eq_true]
        intro e he
        by_contra hf
        exact hc ⟨e, he, by simpa using hf⟩
      simp [this, hsw]
  cases hm : state.flashMode
  · refine ⟨dis, [], st0, ?_, hdw, by simp, ?_⟩
    · simp [Lights.setLED, hm, hd, hs0]
    · simp [hsw0]
  · simpa [Lights.setLED, hm] using key .TIMED (by decide) hm
  · simpa [Lights.setLED, hm] using key .HARDWARE (by decide) hm

theorem breathWrite_event {u : Utils} {t : led_type} {v : Nat} {e : Event}
    (h : e.write = breathWrite u t v) :
    e.channel = some t ∧ e.attr ≠ some .brightness := by
  obtain ⟨n, x, b⟩ := e
  simp only [Event.write, breathWrite, Prod.mk.injEq] at h
  obtain ⟨rfl, rfl⟩ := h
  by_cases hb : (kLEDs u t).mBreath = true <;> simp [Event.channel, Event.attr, hb]

theorem brightnessWrite_event {u : Utils} {t : led_type} {v : Nat} {e : Event}
    (h : e.write = brightnessWrite u t v) :
    e.channel = some t ∧ e.attr = some .brightness := by
  obtain ⟨n, x, b⟩ := e
  simp only [Event.write, brightnessWrite, Prod.mk.injEq] at h
  obtain ⟨rfl, rfl⟩ := h
  simp [Event.channel, Event.attr]

theorem mem_disableWrites {u : Utils} {self : Lights} {l : Trace} {e : Event}
    (hl : l.map Event.write = disableWrites u self) (he : e ∈ l) :
    (∃ t ∈ self.channels, e.channel = some t) ∧ e.attr ≠ some .brightness := by
  have hm : e.write ∈ disableWrites u self := hl ▸ List.mem_map_of_mem _ he
  unfold disableWrites at hm
  unfold Lights.channels
  by_cases hw : self.mWhiteLED = true
  · simp only [hw, if_true, List.mem_singleton] at hm ⊢
    exact ⟨⟨_, rfl, (breathWrite_event hm).1⟩, (breathWrite_event hm).2⟩
  · simp only [hw, if_false, List.mem_cons, List.mem_singleton, List.not_mem_nil, or_false,
      Bool.false_eq_true] at hm ⊢
    rcases hm with hm | hm | hm
    · exact ⟨⟨_, Or.inl rfl, (breathWrite_event hm).1⟩, (breathWrite_event hm).2⟩
    · exact ⟨⟨_, Or.inr (Or.inl rfl), (breathWrite_event hm).1⟩, (breathWrite_event hm).2⟩
    · exact ⟨⟨_, Or.inr (Or.inr rfl), (breathWrite_event hm).1⟩, (breathWrite_event hm).2⟩

theorem mem_breathWrites {u : Utils} {self : Lights} {color : argb_t} {blink : Nat}
    {l : Trace} {e : Event}
    (hl : l.map Event.write = breathWrites u self color blink) (he : e ∈ l) :
    (∃ t ∈ self.channels, e.channel = some t) ∧ e.attr ≠ some .brightness := by
  have hm : e.write ∈ breathWrites u self color blink := hl ▸ List.mem_map_of_mem _ he
  unfold breathWrites at hm
  unfold Lights.channels
  by_cases hw : self.mWhiteLED = true
  · simp only [hw, if_true, List.mem_singleton] at hm ⊢
    exact ⟨⟨_, rfl, (breathWrite_event hm).1⟩, (breathWrite_event hm).2⟩
  · simp only [hw, if_false, List.mem_append, Bool.false_eq_true] at hm ⊢
    rcases hm with (hm | hm) | hm
    · split_ifs at hm
      · rw [List.mem_singleton] at hm
        exact ⟨⟨_, by simp, (breathWrite_event hm).1⟩, (breathWrite_event hm).2⟩
      · simp at hm
    · split_ifs at hm
      · rw [List.mem_singleton] at hm
        exact ⟨⟨_, by simp, (breathWrite_event hm).1⟩, (breathWrite_event hm).2⟩
      · simp at hm
    · split_ifs at hm
      · rw [List.mem_singleton] at hm
        exact ⟨⟨_, by simp, (breathWrite_event hm).1⟩, (breathWrite_event hm).2⟩
      · simp at hm

theorem mem_steadyWrites {u : Utils} {self : Lights} {state : HwLightState}
    {l : Trace} {e : Event}
    (hl : l.map Event.write = steadyWrites u self state) (he : e ∈ l) :
    (∃ t ∈ self.channels, e.channel = some t) ∧ e.attr = some .brightness := by
  have hm : e.write ∈ steadyWrites u self state := hl ▸ List.mem_map_of_mem _ he
  unfold steadyWrites at hm
  unfold Lights.channels
  by_cases hw : self.mWhiteLED = true
  · simp only [hw, if_true, List.mem_singleton] at hm ⊢
    exact ⟨⟨_, rfl, (brightnessWrite_event hm).1⟩, (brightnessWrite_event hm).2⟩
  · simp only [hw, if_false, List.mem_cons, List.mem_singleton, List.not_mem_nil, or_false,
      Bool.false_eq_true] at hm ⊢
    rcases hm with hm | hm | hm
    · exact ⟨⟨_, Or.inl rfl, (brightnessWrite_event hm).1⟩, (brightnessWrite_event hm).2⟩
    · exact ⟨⟨_, Or.inr (Or.inl rfl), (brightnessWrite_event hm).1⟩, (brightnessWrite_event hm).2⟩
    · exact ⟨⟨_, Or.inr (Or.inr rfl), (brightnessWrite_event hm).1⟩, (brightnessWrite_event hm).2⟩

theorem steadyWrites_ne_nil (u : Utils) (self : Lights) (state : HwLightState) :
    steadyWrites u self state ≠ [] := by
  unfold steadyWrites
  split_ifs <;> simp

/-- C4. When a blink is requested (flash mode TIMED or HARDWARE, on and off time
positive), the writes of `setLED` are, in order: the writes `dis` that switch
breath off; one `setBreath(1)` per attempted channel, `att` (the white channel
alone when present, otherwise each of red, green, blue with non-zero intensity,
whatever the earlier calls returned); then `rest`.  A write to a brightness
attribute is issued if and only if one of the attempted `setBreath(1)` calls
failed, and `rest` consists of brightness writes only. -/
theorem setLED_blink_attempts_breath (u : Utils) (self : Lights) (state : HwLightState)
    (tr : Trace) (h : spec_blinkRequested state) :
    ∃ dis att rest : Trace,
      self.setLED u state tr = tr ++ dis ++ att ++ rest ∧
      dis.map Event.write =
        (if self.mWhiteLED then [breathWrite u .WHITE 0]
          else [breathWrite u .RED 0, breathWrite u .GREEN 0, breathWrite u .BLUE 0]) ∧
      att.map Event.write =
        (if self.mWhiteLED then [breathWrite u .WHITE 1]
          else
            (if (colorToArgb state.color).red ≠ 0 then [breathWrite u .RED 1] else []) ++
            (if (colorToArgb state.color).green ≠ 0 then [breathWrite u .GREEN 1] else []) ++
            (if (colorToArgb state.color).blue ≠ 0 then [breathWrite u .BLUE 1] else [])) ∧
      ((∃ e ∈ dis ++ att ++ rest, e.attr = some .brightness) ↔ (∃ e ∈ att, e.ok = false)) ∧
      (∀ e ∈ rest, e.attr = some .brightness) := by
  obtain ⟨hmode, hon, hoff⟩ := h
  have hne : state.flashMode ≠ .NONE := by
    rcases hmode with hm | hm <;> rw [hm] <;> decide
  have hblink : (if state.flashOnMs ≠ 0 ∧ state.flashOffMs ≠ 0 then 1 else 0) = 1 := by
    rw [if_pos ⟨by omega, by omega⟩]
  obtain ⟨dis, att, rest, he, hdw, haw, hrw⟩ := setLED_shape u self state tr
  rw [if_neg hne, hblink] at haw
  refine ⟨dis, att, rest, he, hdw, haw, ⟨?_, ?_⟩, ?_⟩
  · rintro ⟨e, hmem, hbr⟩
    by_contra hc
    rw [if_neg (by simp only [hne, false_or]; exact hc)] at hrw
    have hrest : rest = [] := List.map_eq_nil_iff.mp hrw
    subst hrest
    simp only [List.append_nil, List.mem_append] at hmem
    rcases hmem with hmem | hmem
    · exact (mem_disableWrites hdw hmem).2 hbr
    · exact (mem_breathWrites haw hmem).2 hbr
  · intro hf
    rw [if_pos (Or.inr hf)] at hrw
    have hrest : rest ≠ [] := by
      intro h0
      rw [h0] at hrw
      exact steadyWrites_ne_nil u self state hrw.symm
    obtain ⟨e, hmem⟩ := List.exists_mem_of_ne_nil rest hrest
    exact ⟨e, List.mem_append_right _ hmem, (mem_steadyWrites hrw hmem).2⟩
  · intro e hmem
    by_cases hc : state.flashMode = .NONE ∨ ∃ e ∈ att, e.ok = false
    · rw [if_pos hc] at hrw
      exact (mem_steadyWrites hrw hmem).2
    · rw [if_neg hc] at hrw
      rw [List.map_eq_nil_iff.mp hrw] at hmem
      cases hmem

/-- Witness for C4: a red TIMED 500/500 state on a device without a white LED. -/
theorem setLED_blink_attempts_breath_witness :
    spec_blinkRequested HwLightState.redBlink ∧
    ∃ dis att rest : Trace,
      (Lights.new Utils.allOk).setLED Utils.allOk HwLightState.redBlink [] =
        [] ++ dis ++ att ++ rest ∧
      dis.map Event.write =
        (if (Lights.new Utils.allOk).mWhiteLED then [breathWrite Utils.allOk .WHITE 0]
          else [breathWrite Utils.allOk .RED 0, breathWrite Utils.allOk .GREEN 0,
            breathWrite Utils.allOk .BLUE 0]) ∧
      att.map Event.write =
        (if (Lights.new Utils.allOk).mWhiteLED then [breathWrite Utils.allOk .WHITE 1]
          else
            (if (colorToArgb HwLightState.redBlink.color).red ≠ 0 then
              [breathWrite Utils.allOk .RED 1] else []) ++
            (if (colorToArgb HwLightState.redBlink.color).green ≠ 0 then
              [breathWrite Utils.allOk .GREEN 1] else []) ++
            (if (colorToArgb HwLightState.redBlink.color).blue ≠ 0 then
              [breathWrite Utils.allOk .BLUE 1] else [])) ∧
      ((∃ e ∈ dis ++ att ++ rest, e.attr = some .brightness) ↔ (∃ e ∈ att, e.ok = false)) ∧
      (∀ e ∈ rest, e.attr = some .brightness) :=
  ⟨by decide,
    setLED_blink_attempts_breath Utils.allOk (Lights.new Utils.allOk) HwLightState.redBlink []
      (by decide)⟩

/-- C5, evaluation at a failing input: the red state in TIMED mode with on and off
time 0 does not request a blink (`blink` is computed as 0), yet the switch of
`setLED` looks at the flash mode alone: on a device without a white LED where
every write succeeds `setLED` issues four breath writes (value 0) and no
brightness write at all.  The same writes result from
`setLightState(BATTERY, state)` on a freshly constructed object. -/
theorem setLED_timed_zero_skips_brightness :
    ¬ spec_blinkRequested HwLightState.redTimedZero ∧
    HwLightState.redTimedZero.flashOnMs = 0 ∧
    (Lights.new Utils.allOk).mWhiteLED = false ∧
    (colorToArgb HwLightState.redTimedZero.color).red = 255 ∧
    (Lights.new Utils.allOk).setLED Utils.allOk HwLightState.redTimedZero [] =
      [⟨.led .RED .blink, .int 0, true⟩, ⟨.led .GREEN .blink, .int 0, true⟩,
       ⟨.led .BLUE .blink, .int 0, true⟩, ⟨.led .RED .blink, .int 0, true⟩] ∧
    (∀ e ∈ (Lights.new Utils.allOk).setLED Utils.allOk HwLightState.redTimedZero [],
      e.attr ≠ some .brightness) ∧
    (Lights.new Utils.allOk).setLightState Utils.allOk LightType.BATTERY
        HwLightState.redTimedZero [] =
      some (.ok, (Lights.new Utils.allOk).withSlot .BATTERY_STATE HwLightState.redTimedZero,
        [⟨.led .RED .blink, .int 0, true⟩, ⟨.led .GREEN .blink, .int 0, true⟩,
         ⟨.led .BLUE .blink, .int 0, true⟩, ⟨.led .RED .blink, .int 0, true⟩]) := by
  decide

/-- The writes of `setLED` for a state whose flash mode is NONE or whose on time or
off time is 0, in order: the writes `dis` that switch breath off; `att`, empty
for flash mode NONE and otherwise one `setBreath(0)` per attempted channel; then
`rest`.  For flash mode NONE, `rest` is `setBrightness` on every relevant channel
with its intensity: the white channel with the overall brightness when present,
otherwise red, green and blue with their decoded intensities.  For the other
flash modes the code reaches these writes only after a failed call in `att`. -/
theorem setLED_steady_brightness (u : Utils) (self : Lights) (state : HwLightState)
    (tr : Trace)
    (h : state.flashMode = .NONE ∨ state.flashOnMs = 0 ∨ state.flashOffMs = 0) :
    ∃ dis att rest : Trace,
      self.setLED u state tr = tr ++ dis ++ att ++ rest ∧
      dis.map Event.write =
        (if self.mWhiteLED then [breathWrite u .WHITE 0]
          else [breathWrite u .RED 0, breathWrite u .GREEN 0, breathWrite u .BLUE 0]) ∧
      att.map Event.write =
        (if state.flashMode = .NONE then []
          else if self.mWhiteLED then [breathWrite u .WHITE 0]
          else
            (if (colorToArgb state.color).red ≠ 0 then [breathWrite u .RED 0] else []) ++
            (if (colorToArgb state.color).green ≠ 0 then [breathWrite u .GREEN 0] else []) ++
            (if (colorToArgb state.color).blue ≠ 0 then [breathWrite u .BLUE 0] else [])) ∧
      ((state.flashMode = .NONE ∨ ∃ e ∈ att, e.ok = false) →
        rest.map Event.write =
          (if self.mWhiteLED then
            [brightnessWrite u .WHITE (u32 (u.colorToBrightness state.color))]
          else
            [brightnessWrite u .RED (colorToArgb state.color).red,
             brightnessWrite u .GREEN (colorToArgb state.color).green,
             brightnessWrite u .BLUE (colorToArgb state.color).blue])) ∧
      (¬ (state.flashMode = .NONE ∨ ∃ e ∈ att, e.ok = false) → rest = []) := by
  obtain ⟨dis, att, rest, he, hdw, haw, hrw⟩ := setLED_shape u self state tr
  refine ⟨dis, att, rest, he, hdw, ?_, ?_, ?_⟩
  · by_cases hn : state.flashMode = .NONE
    · rw [if_pos hn] at haw ⊢
      exact haw
    · have hz : ¬ (state.flashOnMs ≠ 0 ∧ state.flashOffMs ≠ 0) := by
        rcases h with h | h | h
        · exact absurd h hn
        · exact fun hc => hc.1 h
        · exact fun hc => hc.2 h
      rw [if_neg hn, if_neg hz] at haw
      rw [if_neg hn]
      exact haw
  · intro hc
    rw [if_pos hc] at hrw
    exact hrw
  · intro hc
    rw [if_neg hc] at hrw
    exact List.map_eq_nil_iff.mp hrw

/-- C6. For every state and whatever each write returns, the writes of `setLED`
begin with `setBreath(0)` on the white channel alone when the white LED is
present, and on red, green and blue otherwise; every other write of the call
follows them; and every write of the call goes to the white channel when it is
present, and to one of red, green, blue otherwise. -/
theorem setLED_disables_breath_first (u : Utils) (self : Lights) (state : HwLightState)
    (tr : Trace) :
    ∃ dis rest : Trace,
      self.setLED u state tr = tr ++ dis ++ rest ∧
      dis.map Event.write =
        (if self.mWhiteLED then [breathWrite u .WHITE 0]
          else [breathWrite u .RED 0, breathWrite u .GREEN 0, breathWrite u .BLUE 0]) ∧
      ∀ e ∈ dis ++ rest,
        if self.mWhiteLED then e.channel = some .WHITE
        else e.channel = some .RED ∨ e.channel = some .GREEN ∨ e.channel = some .BLUE := by
  obtain ⟨dis, att, rest, he, hdw, haw, hrw⟩ := setLED_shape u self state tr
  have hch : ∀ e : Event, (∃ t ∈ self.channels, e.channel = some t) →
      if self.mWhiteLED then e.channel = some .WHITE
      else e.channel = some .RED ∨ e.channel = some .GREEN ∨ e.channel = some .BLUE := by
    rintro e ⟨t, ht, hc⟩
    unfold Lights.channels at ht
    by_cases hw : self.mWhiteLED = true
    · simp only [hw, if_true, List.mem_singleton] at ht ⊢
      rw [hc, ht]
    · simp only [hw, if_false, List.mem_cons, List.mem_singleton, List.not_mem_nil, or_false,
        Bool.false_eq_true] at ht ⊢
      rcases ht with rfl | rfl | rfl <;> simp [hc]
  refine ⟨dis, att ++ rest, by rw [he]; simp, hdw, ?_⟩
  intro e hmem
  apply hch
  simp only [List.mem_append] at hmem
  rcases hmem with hmem | hmem | hmem
  · exact (mem_disableWrites hdw hmem).1
  · by_cases hn : state.flashMode = .NONE
    · rw [if_pos hn] at haw
      rw [List.map_eq_nil_iff.mp haw] at hmem
      cases hmem
    · rw [if_neg hn] at haw
      exact (mem_breathWrites haw hmem).1
  · by_cases hc : state.flashMode = .NONE ∨ ∃ e ∈ att, e.ok = false
    · rw [if_pos hc] at hrw
      exact (mem_steadyWrites hrw hmem).1
    · rw [if_neg hc] at hrw
      rw [List.map_eq_nil_iff.mp hrw] at hmem
      cases hmem

/-! ## Ramp synthesis: `LED::setTimed` -/

theorem ShortCircuit.first (u : Utils) (n : Node) (v : Val) (tr : Trace) :
    ShortCircuit tr [(n, v)] (writeToFile u n v tr) := by
  refine ⟨[⟨n, v, u.writeResult tr n v⟩], rfl, ⟨1, rfl⟩, ?_, ?_⟩
  · intro h
    exact ⟨rfl, by simpa [writeToFile] using h⟩
  · intro h
    exact ⟨[], _, rfl, by simpa [writeToFile] using h, by simp⟩

theorem ShortCircuit.next {u : Utils} {tr : Trace} {plan : List (Node × Val)}
    {r : Bool × Trace} (h : ShortCircuit tr plan r) (n : Node) (v : Val) :
    ShortCircuit tr (plan ++ [(n, v)]) (andAlso r (writeToFile u n v)) := by
  obtain ⟨new, hr, ⟨k, hk⟩, ht, hf⟩ := h
  unfold andAlso
  cases h1 : r.1
  · obtain ⟨pre, e, hn, he, hpre⟩ := hf h1
    refine ⟨new, by simpa using hr, ⟨min k plan.length, ?_⟩, by simp, fun _ => ⟨pre, e, hn, he, hpre⟩⟩
    rw [hk, List.take_append_eq_append_take]
    simp
  · obtain ⟨hm, hall⟩ := ht h1
    simp only [if_true]
    refine ⟨new ++ [⟨n, v, u.writeResult (tr ++ new) n v⟩], by simp [writeToFile, hr],
      ⟨plan.length + 1, by simp [hm, Event.write]⟩, ?_, ?_⟩
    · intro h2
      refine ⟨by simp [hm, Event.write], ?_⟩
      intro e he
      rcases List.mem_append.mp he with he | he
      · exact hall e he
      · rw [List.mem_singleton] at he
        subst he
        simpa [writeToFile, hr] using h2
    · intro h2
      exact ⟨new, _, rfl, by simpa [writeToFile, hr] using h2, hall⟩

/-- On a channel without hardware breath `setTimed` is the `&&`-chain of its six
writes. -/
theorem setTimed_shortCircuit (u : Utils) (self : LED) (value onMs offMs idx : Nat)
    (tr : Trace) (hb : self.mBreath = false) :
    ShortCircuit tr (LED.setTimed.writes self value onMs offMs idx)
      (self.setTimed u value onMs offMs idx tr) := by
  unfold LED.setTimed
  rw [if_neg (by simp [hb])]
  exact (((((ShortCircuit.first u _ _ tr).next _ _).next _ _).next _ _).next _ _).next _ _

/-- The part of `ShortCircuit` the timing claims use: the issued writes are an
initial segment of the plan, and the whole plan when no issued write failed. -/
theorem ShortCircuit.issued {tr : Trace} {plan : List (Node × Val)} {r : Bool × Trace}
    (h : ShortCircuit tr plan r) :
    ∃ new : Trace, r.2 = tr ++ new ∧
      (∃ k, new.map Event.write = plan.take k) ∧
      ((∀ e ∈ new, e.ok = true) → new.map Event.write = plan) := by
  obtain ⟨new, hr, hk, ht, hf⟩ := h
  refine ⟨new, hr, hk, fun hall => ?_⟩
  cases h1 : r.1
  · obtain ⟨pre, e, hn, he, -⟩ := hf h1
    have := hall e (by rw [hn]; simp)
    rw [he] at this
    cases this
  · exact (ht h1).1

theorem toInt32_of_lt {x : Int} (h0 : -2 ^ 31 ≤ x) (h1 : x < 2 ^ 31) : toInt32 x = x := by
  unfold toInt32
  norm_num at h0 h1 ⊢
  omega

theorem timing_full {onMs offMs : Nat} (h1 : 240 ≤ onMs) (h2 : onMs < 2 ^ 31 + 240)
    (h3 : offMs < 2 ^ 31 + 240) :
    LED.setTimed.timing onMs offMs =
      { stepDuration := 15, pauseHi := (onMs : Int) - 240, pauseLo := (offMs : Int) - 240 } := by
  have hc : u32 (kRampMaxStepDurationMs * kRampSteps).toNat = 240 := by decide
  have hk : toInt32 (kRampSteps * kRampMaxStepDurationMs) = 240 := by decide
  unfold LED.setTimed.timing
  rw [hc, if_neg (by omega)]
  simp only [hk]
  norm_num at h2 h3
  have e1 : toInt32 (((onMs : Int) - 240) % 2 ^ 32) = (onMs : Int) - 240 := by
    unfold toInt32; norm_num; omega
  have e2 : toInt32 (((offMs : Int) - 240) % 2 ^ 32) = (offMs : Int) - 240 := by
    unfold toInt32; norm_num; omega
  rw [e1, e2]
  rfl

theorem timing_compressed {onMs offMs : Nat} (h1 : onMs < 240) (h2 : offMs < 2 ^ 31) :
    LED.setTimed.timing onMs offMs =
      { stepDuration := ((onMs / 16 : Nat) : Int), pauseHi := 0, pauseLo := (offMs : Int) } := by
  have hc : u32 (kRampMaxStepDurationMs * kRampSteps).toNat = 240 := by decide
  have hk : u32 kRampSteps.toNat = 16 := by decide
  unfold LED.setTimed.timing
  rw [hc, if_pos (by omega), hk]
  norm_num at h2
  have e1 : toInt32 ((onMs / 16 : Nat) : Int) = ((onMs / 16 : Nat) : Int) := by
    unfold toInt32; norm_num; omega
  have e2 : toInt32 (offMs : Int) = (offMs : Int) := by
    unfold toInt32; norm_num; omega
  rw [e1, e2]

theorem scaledDuty_eq {b i : Nat} (hb : b ≤ 255) (hi : i ≤ 16) :
    scaledDuty (toInt32 b) i = ((i * 512 * b / (255 * 16) : Nat) : Int) := by
  have hp : i * 512 * b ≤ 16 * 512 * 255 :=
    Nat.mul_le_mul (Nat.mul_le_mul_right _ hi) hb
  have e0 : toInt32 (b : Int) = b := toInt32_of_lt (by omega) (by norm_num; omega)
  have e1 : toInt32 ((i : Int) * 512) = (i : Int) * 512 :=
    toInt32_of_lt (by omega) (by norm_num; omega)
  have e3 : toInt32 (255 * kRampSteps) = ((255 * 16 : Nat) : Int) := by decide
  have ec : (i : Int) * 512 * (b : Int) = ((i * 512 * b : Nat) : Int) := by push_cast; ring
  unfold scaledDuty
  rw [e0, e1, e3, ec]
  generalize i * 512 * b = p at hp
  have e2 : toInt32 (p : Int) = p := toInt32_of_lt (by omega) (by norm_num; omega)
  rw [e2, Int.tdiv_eq_ediv (by omega) (by omega), ← Int.ofNat_ediv]
  have hq : p / (255 * 16) ≤ 512 := by omega
  generalize p / (255 * 16) = q at hq
  exact toInt32_of_lt (by omega) (by norm_num; omega)

theorem getScaledDutyPercent_eq_join (brightness : Int) :
    getScaledDutyPercent brightness =
      ",".intercalate ((dutyEntries brightness).map toString) := by
  simp [getScaledDutyPercent, dutyEntries, kRampSteps, List.range, List.range.loop,
    getScaledDutyPercent.step, String.intercalate, String.intercalate.go]


/-- The run `setTimed(255, 240, 500, 0)` on a device that accepts every write. -/
theorem setTimed_240_500_writes :
    (LED.redNoBreath.setTimed Utils.allOk 255 240 500 0 []).2.map Event.write =
      [(.led .RED .start_idx, .int 0),
       (.led .RED .duty_pcts,
        .str "0,32,64,96,128,160,192,224,256,288,320,352,384,416,448,480,512"),
       (.led .RED .pause_lo, .int 260), (.led .RED .pause_hi, .int 0),
       (.led .RED .ramp_step_ms, .int 15), (.led .RED .blink, .int 1)] := by
  decide

/-- Counterexample to C7 as stated: with `onMs = 2^31 + 240` the value stored in
the `int` variable `pauseHi`, and written to `pause_hi`, is `-2147483648`, not
`onMs - 240 = 2147483648`. -/
theorem setTimed_pauseHi_wraps :
    (240 : Nat) ≤ 2 ^ 31 + 240 ∧ (2 ^ 31 + 240 : Nat) < 2 ^ 32 ∧
    LED.redNoBreath.mBreath = false ∧
    (LED.setTimed.timing (2 ^ 31 + 240) 500).pauseHi = -2147483648 ∧
    (LED.setTimed.timing (2 ^ 31 + 240) 500).pauseHi ≠ ((2 ^ 31 + 240 : Nat) : Int) - 240 ∧
    (Node.led .RED .pause_hi, Val.int (-2147483648)) ∈
      (LED.redNoBreath.setTimed Utils.allOk 255 (2 ^ 31 + 240) 500 0 []).2.map Event.write := by
  decide

/-- C7, amended. On a channel without hardware breath and for every `onMs ≥ 240`,
`setTimed` uses full resolution: `stepDuration = 15` for every `offMs`;
`pauseHi = onMs - 240` for every `offMs` when `onMs < 2^31 + 240`; and
`pauseLo = offMs - 240` when `240 ≤ offMs < 2^31 + 240`.  Under these bounds the
writes it issues are an initial segment of: `start_idx`, `duty_pcts`, `pause_lo`
with `offMs - 240`, `pause_hi` with `onMs - 240`, `ramp_step_ms` with 15, `blink`
with 1, and all six when none of the issued writes fails.  In particular
`setTimed(255, 240, 500, 0)` on a device that accepts every write writes
`ramp_step_ms` 15, `pause_hi` 0 and `pause_lo` 260. -/
theorem setTimed_full_resolution (u : Utils) (self : LED) (value onMs offMs idx : Nat)
    (tr : Trace) (hb : self.mBreath = false) (h1 : 240 ≤ onMs) :
    (∀ offMs' : Nat, (LED.setTimed.timing onMs offMs').stepDuration = 15) ∧
    (onMs < 2 ^ 31 + 240 →
      ∀ offMs' : Nat, (LED.setTimed.timing onMs offMs').pauseHi = (onMs : Int) - 240) ∧
    (240 ≤ offMs → offMs < 2 ^ 31 + 240 →
      (LED.setTimed.timing onMs offMs).pauseLo = (offMs : Int) - 240) ∧
    (onMs < 2 ^ 31 + 240 → 240 ≤ offMs → offMs < 2 ^ 31 + 240 →
      LED.setTimed.timing onMs offMs =
        { stepDuration := 15, pauseHi := (onMs : Int) - 240,
          pauseLo := (offMs : Int) - 240 } ∧
      ∃ new : Trace, (self.setTimed u value onMs offMs idx tr).2 = tr ++ new ∧
        (∃ k, new.map Event.write =
          [(Node.led self.type .start_idx, Val.int (LED.setTimed.start_idx idx)),
           (.led self.type .duty_pcts, .str (getScaledDutyPercent (toInt32 value))),
           (.led self.type .pause_lo, .int ((offMs : Int) - 240)),
           (.led self.type .pause_hi, .int ((onMs : Int) - 240)),
           (.led self.type .ramp_step_ms, .int 15),
           (.led self.type .blink, .int 1)].take k) ∧
        ((∀ e ∈ new, e.ok = true) → new.map Event.write =
          [(Node.led self.type .start_idx, Val.int (LED.setTimed.start_idx idx)),
           (.led self.type .duty_pcts, .str (getScaledDutyPercent (toInt32 value))),
           (.led self.type .pause_lo, .int ((offMs : Int) - 240)),
           (.led self.type .pause_hi, .int ((onMs : Int) - 240)),
           (.led self.type .ramp_step_ms, .int 15),
           (.led self.type .blink, .int 1)])) ∧
    (LED.redNoBreath.setTimed Utils.allOk 255 240 500 0 []).2.map Event.write =
      [(.led .RED .start_idx, .int 0),
       (.led .RED .duty_pcts,
        .str "0,32,64,96,128,160,192,224,256,288,320,352,384,416,448,480,512"),
       (.led .RED .pause_lo, .int 260), (.led .RED .pause_hi, .int 0),
       (.led .RED .ramp_step_ms, .int 15), (.led .RED .blink, .int 1)] := by
  have helse : ∀ offMs' : Nat, LED.setTimed.timing onMs offMs' =
      { stepDuration := 15
        pauseHi := toInt32 (((onMs : Int) - 240) % 2 ^ 32)
        pauseLo := toInt32 (((offMs' : Int) - 240) % 2 ^ 32) } := by
    intro offMs'
    have hc : u32 (kRampMaxStepDurationMs * kRampSteps).toNat = 240 := by decide
    have hk : toInt32 (kRampSteps * kRampMaxStepDurationMs) = 240 := by decide
    unfold LED.setTimed.timing
    rw [hc, if_neg (by omega)]
    simp only [hk]
    rfl
  have hhi : onMs < 2 ^ 31 + 240 →
      toInt32 (((onMs : Int) - 240) % 2 ^ 32) = (onMs : Int) - 240 := by
    intro h2
    norm_num at h2
    unfold toInt32; norm_num; omega
  have hlo : 240 ≤ offMs → offMs < 2 ^ 31 + 240 →
      toInt32 (((offMs : Int) - 240) % 2 ^ 32) = (offMs : Int) - 240 := by
    intro h3 h4
    norm_num at h4
    unfold toInt32; norm_num; omega
  refine ⟨fun offMs' => by rw [helse], fun h2 offMs' => by rw [helse]; exact hhi h2,
    fun h3 h4 => by rw [helse]; exact hlo h3 h4, fun h2 h3 h4 => ?_,
    setTimed_240_500_writes⟩
  have ht : LED.setTimed.timing onMs offMs =
      { stepDuration := 15, pauseHi := (onMs : Int) - 240,
        pauseLo := (offMs : Int) - 240 } := by
    rw [helse, hhi h2, hlo h3 h4]
  refine ⟨ht, ?_⟩
  have hs := (setTimed_shortCircuit u self value onMs offMs idx tr hb).issued
  simpa only [LED.setTimed.writes, ht] using hs

/-- Witness for C7, amended: `setTimed(255, 240, 500, 0)`. -/
theorem setTimed_full_resolution_witness :
    LED.redNoBreath.mBreath = false ∧ 240 ≤ 240 ∧ 240 < 2 ^ 31 + 240 ∧
    240 ≤ 500 ∧ 500 < 2 ^ 31 + 240 ∧
    LED.setTimed.timing 240 500 = { stepDuration := 15, pauseHi := 0, pauseLo := 260 } :=
  ⟨rfl, by decide, by decide, by decide, by decide,
    ((setTimed_full_resolution Utils.allOk LED.redNoBreath 255 240 500 0 [] rfl
      (by decide)).2.2.2.1 (by decide) (by decide) (by decide)).1⟩

/-- Counterexample to C8 as stated: with `onMs = 100` and `offMs = 2^31` the value
stored in the `int` variable `pauseLo`, and written to `pause_lo`, is
`-2147483648`, not `offMs`. -/
theorem setTimed_pauseLo_wraps :
    (100 : Nat) < 240 ∧ (2 ^ 31 : Nat) < 2 ^ 32 ∧
    LED.redNoBreath.mBreath = false ∧
    (LED.setTimed.timing 100 (2 ^ 31)).pauseLo = -2147483648 ∧
    (LED.setTimed.timing 100 (2 ^ 31)).pauseLo ≠ ((2 ^ 31 : Nat) : Int) ∧
    (Node.led .RED .pause_lo, Val.int (-2147483648)) ∈
      (LED.redNoBreath.setTimed Utils.allOk 255 100 (2 ^ 31) 0 []).2.map Event.write := by
  decide

/-- C8, amended. On a channel without hardware breath, for `onMs < 240` and
`offMs < 2^31`, `setTimed` compresses the ramp: `stepDuration = onMs / 16`
(rounded down), `pauseHi = 0` and `pauseLo = offMs`.  The writes it issues are an
initial segment of: `start_idx`, `duty_pcts`, `pause_lo` with `offMs`, `pause_hi`
with 0, `ramp_step_ms` with `onMs / 16`, `blink` with 1, and all six when none of
the issued writes fails.  Step duration and `pauseHi` are these for every
`offMs`; in particular `onMs = 100` gives step duration 6. -/
theorem setTimed_compressed (u : Utils) (self : LED) (value onMs offMs idx : Nat)
    (tr : Trace) (hb : self.mBreath = false) (h1 : onMs < 240) (h2 : offMs < 2 ^ 31) :
    LED.setTimed.timing onMs offMs =
      { stepDuration := ((onMs / 16 : Nat) : Int), pauseHi := 0, pauseLo := (offMs : Int) } ∧
    (∃ new : Trace, (self.setTimed u value onMs offMs idx tr).2 = tr ++ new ∧
      (∃ k, new.map Event.write =
        [(Node.led self.type .start_idx, Val.int (LED.setTimed.start_idx idx)),
         (.led self.type .duty_pcts, .str (getScaledDutyPercent (toInt32 value))),
         (.led self.type .pause_lo, .int (offMs : Int)),
         (.led self.type .pause_hi, .int 0),
         (.led self.type .ramp_step_ms, .int ((onMs / 16 : Nat) : Int)),
         (.led self.type .blink, .int 1)].take k) ∧
      ((∀ e ∈ new, e.ok = true) → new.map Event.write =
        [(Node.led self.type .start_idx, Val.int (LED.setTimed.start_idx idx)),
         (.led self.type .duty_pcts, .str (getScaledDutyPercent (toInt32 value))),
         (.led self.type .pause_lo, .int (offMs : Int)),
         (.led self.type .pause_hi, .int 0),
         (.led self.type .ramp_step_ms, .int ((onMs / 16 : Nat) : Int)),
         (.led self.type .blink, .int 1)])) ∧
    (∀ offMs' : Nat, (LED.setTimed.timing onMs offMs').stepDuration = ((onMs / 16 : Nat) : Int) ∧
      (LED.setTimed.timing onMs offMs').pauseHi = 0) ∧
    (∀ offMs' : Nat, (LED.setTimed.timing 100 offMs').stepDuration = 6) := by
  have ht := timing_compressed h1 h2
  have hc : u32 (kRampMaxStepDurationMs * kRampSteps).toNat = 240 := by decide
  have hk : u32 kRampSteps.toNat = 16 := by decide
  have hstep : ∀ m : Nat, m < 240 → ∀ offMs' : Nat,
      (LED.setTimed.timing m offMs').stepDuration = ((m / 16 : Nat) : Int) ∧
      (LED.setTimed.timing m offMs').pauseHi = 0 := by
    intro m hm offMs'
    unfold LED.setTimed.timing
    rw [hc, if_pos (by omega), hk]
    refine ⟨?_, rfl⟩
    show toInt32 ((m / 16 : Nat) : Int) = _
    exact toInt32_of_lt (by omega) (by norm_num; omega)
  refine ⟨ht, ?_, hstep onMs h1, fun offMs' => (hstep 100 (by decide) offMs').1⟩
  have hs := (setTimed_shortCircuit u self value onMs offMs idx tr hb).issued
  simpa only [LED.setTimed.writes, ht] using hs

/-- Witness for C8, amended: `onMs = 100`, `offMs = 500`. -/
theorem setTimed_compressed_witness :
    LED.redNoBreath.mBreath = false ∧ 100 < 240 ∧ 500 < 2 ^ 31 ∧
    LED.setTimed.timing 100 500 =
      { stepDuration := ((100 / 16 : Nat) : Int), pauseHi := 0, pauseLo := ((500 : Nat) : Int) } :=
  ⟨rfl, by decide, by decide,
    (setTimed_compressed Utils.allOk LED.redNoBreath 255 100 500 0 [] rfl
      (by decide) (by decide)).1⟩

/-- Entry `i` of the table for a brightness up to 255. -/
theorem dutyEntries_getElem? {b i : Nat} (hb : b ≤ 255) (hi : i ≤ 16) :
    (dutyEntries (toInt32 b))[i]? = some ((i * 512 * b / (255 * 16) : Nat) : Int) := by
  have hk : kRampSteps.toNat + 1 = 17 := by decide
  unfold dutyEntries
  rw [hk, List.getElem?_map, List.getElem?_range (by omega)]
  simp only [Option.map_some']
  rw [scaledDuty_eq hb hi]

/-- Counterexample to C9 as stated: for brightness 1 entry 4 of the table is 0
(the whole table is `0,0,0,0,0,0,0,0,1,1,1,1,1,1,1,1,2`), while
`4 * 512 * 1 / (255 * 16) = 0.50196...` rounds to 1. -/
theorem dutyEntry_truncates :
    (dutyEntries (toInt32 (1 : Nat)))[4]? = some 0 ∧
    getScaledDutyPercent (toInt32 (1 : Nat)) = "0,0,0,0,0,0,0,0,1,1,1,1,1,1,1,1,2" ∧
    round ((4 * 512 * 1 : ℚ) / (255 * 16)) = 1 := by
  refine ⟨by decide, by decide, ?_⟩
  rw [round_eq, Int.floor_eq_iff]
  norm_num

/-- C9, amended. For every brightness in 0..255 and every `i` in 0..16, entry `i` of
the duty-cycle table synthesized by `setTimed` is `i * 512 * brightness / (255 * 16)`
rounded down (the floor of the exact quotient), the text written to `duty_pcts`
is the comma-joined list of the entries, and for brightness 255 entry `i` is
`32 * i`. -/
theorem scaledDuty_floor (b i : Nat) (hb : b ≤ 255) (hi : i ≤ 16) :
    (dutyEntries (toInt32 b))[i]? = some ((i * 512 * b / (255 * 16) : Nat) : Int) ∧
    (((i * 512 * b / (255 * 16) : Nat) : Int) : Int) =
      ⌊((i : ℚ) * 512 * (b : ℚ)) / (255 * 16)⌋ ∧
    getScaledDutyPercent (toInt32 b) =
      ",".intercalate ((dutyEntries (toInt32 b)).map toString) ∧
    (dutyEntries (toInt32 (255 : Nat)))[i]? = some (32 * (i : Int)) := by
  refine ⟨dutyEntries_getElem? hb hi, ?_, getScaledDutyPercent_eq_join _, ?_⟩
  · have := Rat.floor_intCast_div_natCast ((i * 512 * b : Nat) : Int) (255 * 16)
    rw [Int.ofNat_ediv]
    rw [← this]
    push_cast
    norm_num
  · rw [dutyEntries_getElem? (le_refl 255) hi]
    congr 1
    have : i * 512 * 255 / (255 * 16) = 32 * i := by omega
    rw [this]
    push_cast
    rfl

/-- Witness for C9, amended: brightness 255, last entry. -/
theorem scaledDuty_floor_witness :
    255 ≤ 255 ∧ 16 ≤ 16 ∧
    (dutyEntries (toInt32 (255 : Nat)))[16]? =
      some ((16 * 512 * 255 / (255 * 16) : Nat) : Int) :=
  ⟨le_refl _, le_refl _, (scaledDuty_floor 255 16 (le_refl _) (le_refl _)).1⟩

/-- Counterexample to C10 as stated: for brightness 255 the table ends at 512,
not at `2 * 255 = 510`. -/
theorem dutyEntries_last_255 :
    (dutyEntries (toInt32 (255 : Nat))).getLast? = some 512 ∧ (512 : Int) ≠ 2 * 255 := by
  decide

/-- C10, amended. For every brightness in 0..255 the duty-cycle table synthesized
by `setTimed` has exactly 17 entries (the text written is their comma-joined
list), is non-decreasing, starts at 0 and ends at `512 * brightness / 255` rounded
down; that last entry lies between `2 * brightness` and `2 * brightness + 2`, and
equals `2 * brightness` exactly when the brightness is at most 127. -/
theorem dutyEntries_ramp (b : Nat) (hb : b ≤ 255) :
    (dutyEntries (toInt32 b)).length = 17 ∧
    getScaledDutyPercent (toInt32 b) =
      ",".intercalate ((dutyEntries (toInt32 b)).map toString) ∧
    (dutyEntries (toInt32 b)).Pairwise (· ≤ ·) ∧
    (dutyEntries (toInt32 b)).head? = some 0 ∧
    (dutyEntries (toInt32 b)).getLast? = some ((512 * b / 255 : Nat) : Int) ∧
    2 * b ≤ 512 * b / 255 ∧ 512 * b / 255 ≤ 2 * b + 2 ∧
    (512 * b / 255 = 2 * b ↔ b ≤ 127) := by
  have hk : kRampSteps.toNat + 1 = 17 := by decide
  refine ⟨?_, getScaledDutyPercent_eq_join _, ?_, ?_, ?_, by omega, by omega, by omega⟩
  · simp [dutyEntries, hk]
  · unfold dutyEntries
    rw [hk, List.pairwise_map]
    refine List.Pairwise.imp_of_mem ?_ (List.pairwise_lt_range 17)
    intro i j hi hj hij
    rw [List.mem_range] at hi hj
    rw [scaledDuty_eq hb (by omega), scaledDuty_eq hb (by omega)]
    exact_mod_cast Nat.div_le_div_right
      (Nat.mul_le_mul_right _ (Nat.mul_le_mul_right _ hij.le))
  · have h0 := dutyEntries_getElem? hb (Nat.zero_le 16)
    rw [List.head?_eq_getElem?, h0]
    simp
  · have h16 := dutyEntries_getElem? hb (le_refl 16)
    have hl : (dutyEntries (toInt32 b)).length = 17 := by simp [dutyEntries, hk]
    rw [List.getLast?_eq_getElem?, hl, h16]
    congr 2
    omega

/-- Witness for C10, amended: brightness 100, whose table ends at 200. -/
theorem dutyEntries_ramp_witness :
    100 ≤ 255 ∧ (dutyEntries (toInt32 (100 : Nat))).getLast? =
      some ((512 * 100 / 255 : Nat) : Int) :=
  ⟨by decide, (dutyEntries_ramp 100 (by decide)).2.2.2.2.1⟩

/-! ## `setTimed` and `setBrightness`: results and failures -/

/-- Logging one more write with the device's answer keeps the log answered. -/
theorem answered_concat (u : Utils) (tr new : Trace) (n : Node) (v : Val)
    (h : answered u tr new = true) :
    answered u tr (new ++ [⟨n, v, u.writeResult (tr ++ new) n v⟩]) = true := by
  induction new generalizing tr with
  | nil => simp [answered]
  | cons e rest ih =>
    simp only [answered, Bool.and_eq_true] at h
    simp only [List.cons_append, answered, Bool.and_eq_true]
    refine ⟨h.1, ?_⟩
    have := ih (tr ++ [e]) h.2
    simpa using this

/-- The log of an `&&`-chain of writes carries the answers of the device. -/
theorem andAlso_answered {u : Utils} {tr : Trace} {r : Bool × Trace}
    (h : ∃ new, r.2 = tr ++ new ∧ answered u tr new = true) (n : Node) (v : Val) :
    ∃ new, (andAlso r (writeToFile u n v)).2 = tr ++ new ∧ answered u tr new = true := by
  obtain ⟨new, hr, ha⟩ := h
  unfold andAlso
  cases h1 : r.1
  · exact ⟨new, by simpa using hr, ha⟩
  · refine ⟨new ++ [⟨n, v, u.writeResult (tr ++ new) n v⟩], ?_, answered_concat u tr new n v ha⟩
    simp [writeToFile, hr]

/-- The log of `setTimed` carries the answers of the device. -/
theorem setTimed_answered (u : Utils) (self : LED) (value onMs offMs idx : Nat)
    (tr : Trace) :
    ∃ new, (self.setTimed u value onMs offMs idx tr).2 = tr ++ new ∧
      answered u tr new = true := by
  unfold LED.setTimed
  by_cases hb : self.mBreath = true
  · rw [if_pos hb]
    exact ⟨[], by simp, rfl⟩
  · rw [if_neg hb]
    have h0 : ∃ new, (writeToFile u (.led self.type .start_idx)
        (.int (LED.setTimed.start_idx idx)) tr).2 = tr ++ new ∧ answered u tr new = true :=
      ⟨[⟨_, _, _⟩], rfl, by simp [answered]⟩
    exact andAlso_answered (andAlso_answered (andAlso_answered (andAlso_answered
      (andAlso_answered h0 _ _) _ _) _ _) _ _) _ _

/-- C11. On a channel without hardware breath, `setTimed` returns true if and only
if six writes were issued and all of them succeeded.  The writes it issues,
`new`, each logged with the answer of the device, are an initial segment of the
sequence `start_idx`, `duty_pcts`, `pause_lo`, `pause_hi`, `ramp_step_ms`,
`blink = 1`: the whole sequence when no issued write fails, and otherwise the
segment that ends at the first failing write (a failing write is the last one,
and all writes before it succeeded). -/
theorem setTimed_short_circuits (u : Utils) (self : LED) (value onMs offMs idx : Nat)
    (tr : Trace) (hb : self.mBreath = false) :
    ∃ new : Trace,
      (self.setTimed u value onMs offMs idx tr).2 = tr ++ new ∧
      answered u tr new = true ∧
      ((self.setTimed u value onMs offMs idx tr).1 = true ↔
        (new.length = 6 ∧ ∀ e ∈ new, e.ok = true)) ∧
      new.map Event.write =
        [(Node.led self.type .start_idx, Val.int (LED.setTimed.start_idx idx)),
         (.led self.type .duty_pcts, .str (getScaledDutyPercent (toInt32 value))),
         (.led self.type .pause_lo, .int (LED.setTimed.timing onMs offMs).pauseLo),
         (.led self.type .pause_hi, .int (LED.setTimed.timing onMs offMs).pauseHi),
         (.led self.type .ramp_step_ms, .int (LED.setTimed.timing onMs offMs).stepDuration),
         (.led self.type .blink, .int 1)].take new.length ∧
      ((∀ e ∈ new, e.ok = true) → new.length = 6) ∧
      (∀ e ∈ new, e.ok = false →
        ∃ pre, new = pre ++ [e] ∧ ∀ x ∈ pre, x.ok = true) := by
  obtain ⟨new, hr, ⟨k, hk⟩, ht, hf⟩ := setTimed_shortCircuit u self value onMs offMs idx tr hb
  obtain ⟨new', hr', ha⟩ := setTimed_answered u self value onMs offMs idx tr
  have hnn : new' = new := List.append_cancel_left (hr'.symm.trans hr)
  subst hnn
  have hlen : (new'.map Event.write).length = new'.length := List.length_map _ _
  have hplan : (LED.setTimed.writes self value onMs offMs idx).length = 6 := rfl
  refine ⟨new', hr, ha, ⟨fun h1 => ?_, fun h6 => ?_⟩, ?_, fun hall => ?_, fun e he hfail => ?_⟩
  · obtain ⟨hm, hall⟩ := ht h1
    refine ⟨?_, hall⟩
    rw [← hlen, hm, hplan]
  · cases h1 : (self.setTimed u value onMs offMs idx tr).1
    · obtain ⟨pre, e, hn, he, -⟩ := hf h1
      have := h6.2 e (by rw [hn]; simp)
      rw [he] at this
      cases this
    · rfl
  · have hkk : new'.length = min k 6 := by
      rw [← hlen, hk, List.length_take, hplan]
    rw [hk, hkk]
    show List.take k (LED.setTimed.writes self value onMs offMs idx) =
      List.take (min k 6) (LED.setTimed.writes self value onMs offMs idx)
    rw [← hplan, List.take_eq_take]
    simp
  · cases h1 : (self.setTimed u value onMs offMs idx tr).1
    · obtain ⟨pre, e, hn, he, -⟩ := hf h1
      have := hall e (by rw [hn]; simp)
      rw [he] at this
      cases this
    · rw [← hlen, (ht h1).1, hplan]
  · cases h1 : (self.setTimed u value onMs offMs idx tr).1
    · obtain ⟨pre, e', hn, he', hpre⟩ := hf h1
      refine ⟨pre, ?_, hpre⟩
      rw [hn] at he
      rcases List.mem_append.mp he with hin | hin
      · have := hpre e hin
        rw [hfail] at this
        cases this
      · rw [List.mem_singleton] at hin
        rw [hn, hin]
    · have := (ht h1).2 e he
      rw [hfail] at this
      cases this

/-- Witness for C11: `setTimed(255, 240, 500, 0)` on a device that accepts every
write. -/
theorem setTimed_short_circuits_witness :
    LED.redNoBreath.mBreath = false ∧
    ∃ new : Trace,
      (LED.redNoBreath.setTimed Utils.allOk 255 240 500 0 []).2 = [] ++ new ∧
      answered Utils.allOk [] new = true ∧
      ((LED.redNoBreath.setTimed Utils.allOk 255 240 500 0 []).1 = true ↔
        (new.length = 6 ∧ ∀ e ∈ new, e.ok = true)) :=
  ⟨rfl, (setTimed_short_circuits Utils.allOk LED.redNoBreath 255 240 500 0 [] rfl).imp
    (fun _ h => ⟨h.1, h.2.1, h.2.2.1⟩)⟩

/-- C12. On a channel that supports hardware breath, `setTimed` returns false and
leaves the write log as it was (no device write), for every brightness, on time,
off time and lane index, and whatever the device would answer. -/
theorem setTimed_breath_aborts (u : Utils) (self : LED) (value onMs offMs idx : Nat)
    (tr : Trace) (hb : self.mBreath = true) :
    self.setTimed u value onMs offMs idx tr = (false, tr) := by
  unfold LED.setTimed
  rw [if_pos hb]


/-- Witness for C12: a red channel with hardware breath. -/
theorem setTimed_breath_aborts_witness :
    LED.redBreath.mBreath = true ∧
    LED.redBreath.setTimed Utils.allOk 255 240 500 0 [] = (false, []) :=
  ⟨rfl, setTimed_breath_aborts Utils.allOk LED.redBreath 255 240 500 0 [] rfl⟩

/-- A number below `2^32` is its own `uint32_t` value. -/
theorem u32_of_lt {n : Nat} (h : n < 2 ^ 32) : u32 n = n := Nat.mod_eq_of_lt h

/-- Counterexample to C13 as stated: with `mMaxBrightness = 16843010` the product
`255 * 16843010 = 2^32 + 254` wraps to 254, so `setBrightness(255)` writes 0, not
the floor of `255 * 16843010 / 255`, which is 16843010. -/
theorem setBrightness_wraps :
    (16843010 : Nat) < 2 ^ 32 ∧ 255 * 16843010 / 255 = 16843010 ∧
    u32 (255 * LED.redMax16843010.mMaxBrightness) = 254 ∧
    (LED.redMax16843010.setBrightness Utils.allOk 255 []).2 =
      [⟨.led .RED .brightness, .int 0, true⟩] := by
  decide

/-- C13, amended. `setBrightness(value)` issues a single write, to the brightness
attribute, logged with the device's answer, and returns false iff that write
fails.  The number written is `(value * mMaxBrightness mod 2^32) / 255` rounded
down.  When the product does not wrap it is the floor of
`value * mMaxBrightness / 255`; for a value in 0..255 it then lies in
`0..mMaxBrightness`, with 0 mapped to 0 and 255 to `mMaxBrightness`.
`setBrightness(128)` with `mMaxBrightness = 128` writes 64. -/
theorem setBrightness_rescales (u : Utils) (self : LED) (value : Nat) (tr : Trace) :
    (∃ e : Event, (self.setBrightness u value tr).2 = tr ++ [e] ∧
      e.write = (Node.led self.type .brightness,
        Val.int ((u32 (value * self.mMaxBrightness) / 255 : Nat) : Int)) ∧
      answered u tr [e] = true ∧
      ((self.setBrightness u value tr).1 = false ↔ e.ok = false)) ∧
    (value * self.mMaxBrightness < 2 ^ 32 →
      u32 (value * self.mMaxBrightness) / 255 = value * self.mMaxBrightness / 255 ∧
      ((value * self.mMaxBrightness / 255 : Nat) : Int) =
        ⌊((value : ℚ) * (self.mMaxBrightness : ℚ)) / 255⌋) ∧
    (value ≤ 255 → value * self.mMaxBrightness < 2 ^ 32 →
      u32 (value * self.mMaxBrightness) / 255 ≤ self.mMaxBrightness ∧
      (value = 0 → u32 (value * self.mMaxBrightness) / 255 = 0) ∧
      (value = 255 → u32 (value * self.mMaxBrightness) / 255 = self.mMaxBrightness)) ∧
    (LED.red128.setBrightness Utils.allOk 128 []).2.map Event.write =
      [(.led .RED .brightness, .int 64)] := by
  refine ⟨⟨⟨_, _, u.writeResult tr _ _⟩, rfl, rfl, by simp [answered], by simp [LED.setBrightness, writeToFile]⟩,
    fun hw => ⟨by rw [u32_of_lt hw], ?_⟩, fun hv hw => ?_, by decide⟩
  · have := Rat.floor_intCast_div_natCast ((value * self.mMaxBrightness : Nat) : Int) 255
    rw [Int.ofNat_ediv, ← this]
    push_cast
    rfl
  · rw [u32_of_lt hw]
    refine ⟨?_, fun h0 => ?_, fun h255 => ?_⟩
    · apply Nat.div_le_of_le_mul
      exact Nat.mul_le_mul_right _ hv
    · subst h0; simp
    · subst h255
      exact Nat.mul_div_cancel_left _ (by decide)

/-- Witness for C13, amended: `setBrightness(128)` with `mMaxBrightness = 128`. -/
theorem setBrightness_rescales_witness :
    128 ≤ 255 ∧ 128 * LED.red128.mMaxBrightness < 2 ^ 32 ∧
    u32 (128 * LED.red128.mMaxBrightness) / 255 ≤ LED.red128.mMaxBrightness :=
  ⟨by decide, by decide,
    ((setBrightness_rescales Utils.allOk LED.red128 128 []).2.2.1 (by decide) (by decide)).1⟩

/-- The start index for a lane whose segment start fits an `int`. -/
theorem start_idx_eq {idx : Nat} (h : idx ≤ 126322567) :
    LED.setTimed.start_idx idx = 17 * (idx : Int) := by
  unfold LED.setTimed.start_idx
  by_cases h0 : idx = 0
  · subst h0; simp
  · rw [if_pos h0]
    have hk : kRampSteps + 1 = 17 := by decide
    rw [hk]
    have : (17 * (idx : Int)) % 2 ^ 32 = 17 * (idx : Int) := by
      norm_num; omega
    rw [this]
    exact toInt32_of_lt (by omega) (by norm_num; omega)

/-- Counterexample to C16 as stated: for lane 126322568 the product `17 * idx`
reaches `2^31` and the `int` written is negative; for lane 252645135 it is -1; and
lane 4042322161 gets start index 1, inside the segment 0..16 of lane 0. -/
theorem start_idx_wraps :
    LED.setTimed.start_idx 126322568 = -2147483640 ∧
    LED.setTimed.start_idx 126322568 ≠ 17 * ((126322568 : Nat) : Int) ∧
    LED.setTimed.start_idx 252645135 = -1 ∧
    LED.setTimed.start_idx 4042322161 = 1 ∧ LED.setTimed.start_idx 0 = 0 ∧
    (4042322161 : Nat) < 2 ^ 32 ∧
    (Node.led .RED .start_idx, Val.int 1) ∈
      (LED.redNoBreath.setTimed Utils.allOk 255 240 500 4042322161 []).2.map Event.write := by
  decide

/-- C16, amended. For every lane index up to 126322567 (so that `17 * idx < 2^31`)
the start index `setTimed` computes, and writes first, is `17 * idx` (0 for lane
0); the 17-entry segments of two distinct such lanes never share an entry; and
the segments of lanes 0, 1 and 2 together are exactly the entries 0..50, which
lie inside a table of 63 entries. -/
theorem start_idx_segments (idx : Nat) (h : idx ≤ 126322567) :
    LED.setTimed.start_idx idx = 17 * (idx : Int) ∧
    LED.setTimed.start_idx 0 = 0 ∧
    (∀ j : Nat, j ≤ 126322567 → j ≠ idx → ∀ a b : Nat, a < 17 → b < 17 →
      LED.setTimed.start_idx idx + (a : Int) ≠ LED.setTimed.start_idx j + (b : Int)) ∧
    ((List.range 3).flatMap (fun l =>
        (List.range 17).map (fun k : Nat => LED.setTimed.start_idx l + (k : Int))) =
      (List.range 51).map (fun n : Nat => (n : Int))) ∧
    51 ≤ 63 ∧
    (∀ (u : Utils) (self : LED) (value onMs offMs : Nat) (tr : Trace),
      self.mBreath = false →
      ∃ (e : Event) (rest : Trace),
        (self.setTimed u value onMs offMs idx tr).2 = tr ++ e :: rest ∧
        e.write = (Node.led self.type .start_idx, Val.int (17 * (idx : Int)))) := by
  have hE := start_idx_eq h
  refine ⟨hE, by decide, ?_, by decide, by decide, ?_⟩
  · intro j hj hne a b ha hb
    rw [hE, start_idx_eq hj]
    omega
  · intro u self value onMs offMs tr hb
    obtain ⟨new, hr, ⟨k, hk⟩, ht, hf⟩ := setTimed_shortCircuit u self value onMs offMs idx tr hb
    have hne : new ≠ [] := by
      intro h0
      cases h1 : (self.setTimed u value onMs offMs idx tr).1
      · obtain ⟨pre, e, hn, -, -⟩ := hf h1
        rw [h0] at hn
        simp at hn
      · have := (ht h1).1
        rw [h0] at this
        simp [LED.setTimed.writes] at this
    obtain ⟨e, rest, hnew⟩ := List.exists_cons_of_ne_nil hne
    subst hnew
    refine ⟨e, rest, hr, ?_⟩
    have hk0 : k ≠ 0 := by
      intro h0
      rw [h0] at hk
      simp at hk
    obtain ⟨k', rfl⟩ := Nat.exists_eq_succ_of_ne_zero hk0
    simp only [List.map_cons, LED.setTimed.writes, List.take_succ_cons, List.cons.injEq] at hk
    rw [hk.1, hE]

/-- Witness for C16, amended: lane 2 starts at entry 34. -/
theorem start_idx_segments_witness :
    2 ≤ 126322567 ∧ LED.setTimed.start_idx 2 = 17 * ((2 : Nat) : Int) :=
  ⟨by decide, (start_idx_segments 2 (by decide)).1⟩

/-- C18, evaluation at a failing input: `setTimed(255, 300, 100, 0)` on a channel
without hardware breath stores `pauseLo = 100 - 240 = -140` and writes it to
`pause_lo`; the on time is guarded by the test `240 > onMs`, the off time is not. -/
theorem setTimed_negative_pauseLo :
    LED.redNoBreath.mBreath = false ∧
    (LED.setTimed.timing 300 100).pauseLo = -140 ∧
    (LED.setTimed.timing 300 100).pauseHi = 60 ∧
    (LED.redNoBreath.setTimed Utils.allOk 255 300 100 0 []).2.map Event.write =
      [(.led .RED .start_idx, .int 0),
       (.led .RED .duty_pcts,
        .str "0,32,64,96,128,160,192,224,256,288,320,352,384,416,448,480,512"),
       (.led .RED .pause_lo, .int (-140)), (.led .RED .pause_hi, .int 60),
       (.led .RED .ramp_step_ms, .int 15), (.led .RED .blink, .int 1)] := by
  decide

/-- The period of the synthesized cycle at full resolution. -/
theorem timing_period (onMs offMs : Nat) (h1 : 240 ≤ onMs) (h2 : 240 ≤ offMs)
    (h3 : onMs < 2 ^ 31) (h4 : offMs < 2 ^ 31) :
    2 * 16 * (LED.setTimed.timing onMs offMs).stepDuration +
        (LED.setTimed.timing onMs offMs).pauseHi + (LED.setTimed.timing onMs offMs).pauseLo =
      (onMs : Int) + (offMs : Int) := by
  rw [timing_full h1 (by omega) (by omega)]
  simp only
  ring

/-- Ramp-up plus hold stays within the on time, for every on and off time. -/
theorem timing_no_overshoot (onMs offMs : Nat) :
    16 * (LED.setTimed.timing onMs offMs).stepDuration +
      (LED.setTimed.timing onMs offMs).pauseHi ≤ (onMs : Int) := by
  have hc : u32 (kRampMaxStepDurationMs * kRampSteps).toNat = 240 := by decide
  have hk : u32 kRampSteps.toNat = 16 := by decide
  have hk2 : toInt32 (kRampSteps * kRampMaxStepDurationMs) = 240 := by decide
  unfold LED.setTimed.timing
  rw [hc, hk]
  by_cases h : 240 > onMs
  · rw [if_pos h]
    simp only
    rw [toInt32_of_lt (by omega) (by norm_num; omega)]
    omega
  · rw [if_neg h]
    simp only [hk2]
    unfold toInt32 kRampMaxStepDurationMs
    norm_num
    omega


/-- C19. For `onMs` and `offMs` from 240 up to below `2^31`, the cycle `setTimed`
synthesizes keeps the requested period:
`2 * 16 * stepDuration + pauseHi + pauseLo = onMs + offMs`; and for every on time
and off time, ramp-up plus hold does not exceed the on time:
`16 * stepDuration + pauseHi ≤ onMs`. -/
theorem setTimed_period (onMs offMs : Nat) (h1 : 240 ≤ onMs) (h2 : 240 ≤ offMs)
    (h3 : onMs < 2 ^ 31) (h4 : offMs < 2 ^ 31) :
    2 * 16 * (LED.setTimed.timing onMs offMs).stepDuration +
        (LED.setTimed.timing onMs offMs).pauseHi + (LED.setTimed.timing onMs offMs).pauseLo =
      (onMs : Int) + (offMs : Int) ∧
    (∀ onMs' offMs' : Nat,
      16 * (LED.setTimed.timing onMs' offMs').stepDuration +
        (LED.setTimed.timing onMs' offMs').pauseHi ≤ (onMs' : Int)) :=
  ⟨timing_period onMs offMs h1 h2 h3 h4, timing_no_overshoot⟩

/-- Witness for C19: 240 ms on, 500 ms off. -/
theorem setTimed_period_witness :
    240 ≤ 240 ∧ 240 ≤ 500 ∧ 240 < 2 ^ 31 ∧ 500 < 2 ^ 31 ∧
    2 * 16 * (LED.setTimed.timing 240 500).stepDuration +
        (LED.setTimed.timing 240 500).pauseHi + (LED.setTimed.timing 240 500).pauseLo =
      ((240 : Nat) : Int) + ((500 : Nat) : Int) :=
  ⟨by decide, by decide, by decide, by decide,
    (setTimed_period 240 500 (by decide) (by decide) (by decide) (by decide)).1⟩

/-! ## Backlight scaling -/

/-- The scaled value when the product `(m - 1) * (b - 1)` does not wrap. -/
theorem scaleBacklight_eq {m b : Nat} (hm1 : 1 ≤ m) (hm : m ≠ 255) (hmax : m ≤ 16909321)
    (hb1 : 1 ≤ b) (hb : b ≤ 255) :
    Lights.setLightState.scaleBacklight b m = (m - 1) * (b - 1) / 254 + 1 := by
  have hp : (m - 1) * (b - 1) ≤ 16909320 * 254 :=
    Nat.mul_le_mul (by omega) (by omega)
  have e1 : u32 (m + 2 ^ 32 - 1) = m - 1 := by unfold u32; omega
  have e2 : u32 (b + 2 ^ 32 - 1) = b - 1 := by unfold u32; omega
  unfold Lights.setLightState.scaleBacklight
  rw [if_pos ⟨by omega, hm⟩, e1, e2]
  generalize (m - 1) * (b - 1) = p at hp
  have e3 : u32 p = p := u32_of_lt (by omega)
  rw [e3]
  have hq : p / 254 ≤ 16909320 := by omega
  generalize p / 254 = q at hq
  have e4 : u32 q = q := u32_of_lt (by omega)
  rw [e4]
  exact u32_of_lt (by omega)

/-- The one write of `case BACKLIGHT` when a backlight path is present. -/
theorem setLightState_backlight (u : Utils) (self : Lights) (state : HwLightState)
    (tr : Trace) (hp : self.mBacklightPath ≠ "") :
    ∃ ok : Bool, self.setLightState u LightType.BACKLIGHT state tr =
      some (.ok, self, tr ++ [⟨.file self.mBacklightPath,
        .int (Lights.setLightState.scaleBacklight (u32 (u.colorToBrightness state.color))
          (((u.readFromFile (.file kMaxBacklightPath)).map u32).getD 255) : Nat), ok⟩]) := by
  rw [setLightState_byte _ _ _ _ _ (by decide) (by decide)]
  cases h : u.readFromFile (.file kMaxBacklightPath) <;>
    simp [Lights.setLightState.switch, hp, writeToFile, h]


/-- Counterexample to C20 as stated: for the panel maximum 16909322 the product
`(m - 1) * 254` wraps in `uint32_t`, so brightness 255 is written as 1, not as
`m`, below the value written for brightness 254. -/
theorem scaleBacklight_wraps :
    (16909322 : Nat) < 2 ^ 32 ∧
    Lights.setLightState.scaleBacklight 255 16909322 = 1 ∧
    (16909322 - 1) * (255 - 1) / 254 + 1 = 16909322 ∧
    Lights.setLightState.scaleBacklight 254 16909322 = 16842749 ∧
    ¬ (Lights.setLightState.scaleBacklight 254 16909322 ≤
      Lights.setLightState.scaleBacklight 255 16909322) := by
  decide

/-- C20, amended. For every panel maximum `m` with `1 ≤ m ≤ 16909321` (so that
`(m - 1) * 254 < 2^32`) and `m ≠ 255`, and every brightness `b` in 1..255, the
value `setLightState` writes to the backlight is `(m - 1) * (b - 1) / 254 + 1`; it
lies in `1..m`, is non-decreasing in `b`, maps 1 to 1 and 255 to `m`.  Brightness
0 is written as 0 for every maximum, and with maximum 255 the brightness is
written unchanged.  The write goes to `mBacklightPath`. -/
theorem scaleBacklight_linear (m b : Nat) (hm1 : 1 ≤ m) (hm : m ≠ 255) (hmax : m ≤ 16909321)
    (hb1 : 1 ≤ b) (hb : b ≤ 255) :
    Lights.setLightState.scaleBacklight b m = (m - 1) * (b - 1) / 254 + 1 ∧
    1 ≤ Lights.setLightState.scaleBacklight b m ∧
    Lights.setLightState.scaleBacklight b m ≤ m ∧
    (∀ b' : Nat, b ≤ b' → b' ≤ 255 →
      Lights.setLightState.scaleBacklight b m ≤ Lights.setLightState.scaleBacklight b' m) ∧
    Lights.setLightState.scaleBacklight 1 m = 1 ∧
    Lights.setLightState.scaleBacklight 255 m = m ∧
    (∀ m' : Nat, Lights.setLightState.scaleBacklight 0 m' = 0) ∧
    (∀ b' : Nat, Lights.setLightState.scaleBacklight b' 255 = b') ∧
    (∀ (u : Utils) (self : Lights) (state : HwLightState) (tr : Trace),
      self.mBacklightPath ≠ "" →
      ∃ ok : Bool, self.setLightState u LightType.BACKLIGHT state tr =
        some (.ok, self, tr ++ [⟨.file self.mBacklightPath,
          .int (Lights.setLightState.scaleBacklight (u32 (u.colorToBrightness state.color))
            (((u.readFromFile (.file kMaxBacklightPath)).map u32).getD 255) : Nat), ok⟩])) := by
  have hE := scaleBacklight_eq hm1 hm hmax hb1 hb
  refine ⟨hE, by rw [hE]; omega, ?_, ?_, ?_, ?_, ?_, ?_, setLightState_backlight⟩
  · rw [hE]
    have : (m - 1) * (b - 1) / 254 ≤ m - 1 := by
      apply Nat.div_le_of_le_mul
      rw [Nat.mul_comm 254]
      exact Nat.mul_le_mul_left _ (by omega)
    omega
  · intro b' hbb hb'
    rw [hE, scaleBacklight_eq hm1 hm hmax (by omega) hb']
    have : (m - 1) * (b - 1) / 254 ≤ (m - 1) * (b' - 1) / 254 :=
      Nat.div_le_div_right (Nat.mul_le_mul_left _ (by omega))
    omega
  · rw [scaleBacklight_eq hm1 hm hmax (le_refl 1) (by decide)]
    simp
  · rw [scaleBacklight_eq hm1 hm hmax (by decide) (le_refl 255)]
    have : (m - 1) * (255 - 1) / 254 = m - 1 := Nat.mul_div_cancel _ (by decide)
    omega
  · intro m'
    simp [Lights.setLightState.scaleBacklight]
  · intro b'
    simp [Lights.setLightState.scaleBacklight]

/-- Witness for C20, amended: a panel maximum of 1023 and brightness 128. -/
theorem scaleBacklight_linear_witness :
    1 ≤ 1023 ∧ 1023 ≠ 255 ∧ 1023 ≤ 16909321 ∧ 1 ≤ 128 ∧ 128 ≤ 255 ∧
    Lights.setLightState.scaleBacklight 128 1023 = (1023 - 1) * (128 - 1) / 254 + 1 :=
  ⟨by decide, by decide, by decide, by decide, by decide,
    (scaleBacklight_linear 1023 128 (by decide) (by decide) (by decide) (by decide)
      (by decide)).1⟩

/-! ## Repeating an update -/

/-- Under a device that answers after `t2` as it does after `t1`, one write adds
the same entry to both logs. -/
theorem writeToFile_shift {u : Utils} {t1 t2 : Trace}
    (H : ∀ h n v, u.writeResult (t2 ++ h) n v = u.writeResult (t1 ++ h) n v)
    (n : Node) (v : Val) (h : Trace) :
    ∃ e : Event, writeToFile u n v (t1 ++ h) = (e.ok, t1 ++ (h ++ [e])) ∧
      writeToFile u n v (t2 ++ h) = (e.ok, t2 ++ (h ++ [e])) := by
  refine ⟨⟨n, v, u.writeResult (t1 ++ h) n v⟩, ?_, ?_⟩
  · simp [writeToFile]
  · simp [writeToFile, H]

/-- The disable block adds the same entries to both logs. -/
theorem setLED_disable_shift {u : Utils} {t1 t2 : Trace}
    (H : ∀ h n v, u.writeResult (t2 ++ h) n v = u.writeResult (t1 ++ h) n v)
    (self : Lights) (h : Trace) :
    ∃ new : Trace, Lights.setLED.disable u self (t1 ++ h) = t1 ++ (h ++ new) ∧
      Lights.setLED.disable u self (t2 ++ h) = t2 ++ (h ++ new) := by
  unfold Lights.setLED.disable LED.setBreath
  cases hw : self.mWhiteLED
  · obtain ⟨e1, a1, b1⟩ := writeToFile_shift H
      (.led (kLEDs u .RED).type (if (kLEDs u .RED).mBreath then .breath else .blink))
      (.int ((0 : Nat) : Int)) h
    obtain ⟨e2, a2, b2⟩ := writeToFile_shift H
      (.led (kLEDs u .GREEN).type (if (kLEDs u .GREEN).mBreath then .breath else .blink))
      (.int ((0 : Nat) : Int)) (h ++ [e1])
    obtain ⟨e3, a3, b3⟩ := writeToFile_shift H
      (.led (kLEDs u .BLUE).type (if (kLEDs u .BLUE).mBreath then .breath else .blink))
      (.int ((0 : Nat) : Int)) (h ++ [e1] ++ [e2])
    refine ⟨[e1, e2, e3], ?_, ?_⟩
    · simp only [Bool.false_eq_true, if_false, a1, a2, a3]
      simp
    · simp only [Bool.false_eq_true, if_false, b1, b2, b3]
      simp
  · obtain ⟨e1, a1, b1⟩ := writeToFile_shift H
      (.led (kLEDs u .WHITE).type (if (kLEDs u .WHITE).mBreath then .breath else .blink))
      (.int ((0 : Nat) : Int)) h
    exact ⟨[e1], by simp only [if_true, a1], by simp only [if_true, b1]⟩


/-- The steady block adds the same entries to both logs. -/
theorem setLED_steady_shift {u : Utils} {t1 t2 : Trace}
    (H : ∀ h n v, u.writeResult (t2 ++ h) n v = u.writeResult (t1 ++ h) n v)
    (self : Lights) (state : HwLightState) (color : argb_t) (h : Trace) :
    ∃ new : Trace, Lights.setLED.steady u self state color (t1 ++ h) = t1 ++ (h ++ new) ∧
      Lights.setLED.steady u self state color (t2 ++ h) = t2 ++ (h ++ new) := by
  unfold Lights.setLED.steady LED.setBrightness
  cases hw : self.mWhiteLED
  · obtain ⟨e1, a1, b1⟩ := writeToFile_shift H (.led (kLEDs u .RED).type .brightness)
      (.int ((u32 (color.red * (kLEDs u .RED).mMaxBrightness) / 0xFF : Nat) : Int)) h
    obtain ⟨e2, a2, b2⟩ := writeToFile_shift H (.led (kLEDs u .GREEN).type .brightness)
      (.int ((u32 (color.green * (kLEDs u .GREEN).mMaxBrightness) / 0xFF : Nat) : Int))
      (h ++ [e1])
    obtain ⟨e3, a3, b3⟩ := writeToFile_shift H (.led (kLEDs u .BLUE).type .brightness)
      (.int ((u32 (color.blue * (kLEDs u .BLUE).mMaxBrightness) / 0xFF : Nat) : Int))
      (h ++ [e1] ++ [e2])
    refine ⟨[e1, e2, e3], ?_, ?_⟩
    · simp only [Bool.false_eq_true, if_false, a1, a2, a3]
      simp
    · simp only [Bool.false_eq_true, if_false, b1, b2, b3]
      simp
  · obtain ⟨e1, a1, b1⟩ := writeToFile_shift H (.led (kLEDs u .WHITE).type .brightness)
      (.int ((u32 (u32 (u.colorToBrightness state.color) * (kLEDs u .WHITE).mMaxBrightness)
        / 0xFF : Nat) : Int)) h
    exact ⟨[e1], by simp only [if_true, a1], by simp only [if_true, b1]⟩

/-- One statement `if (c) rc &= kLEDs[t].setBreath(blink)` adds the same entries to
both logs and leaves the same `rc`. -/
theorem breath_step_shift {u : Utils} {t1 t2 : Trace}
    (H : ∀ h n v, u.writeResult (t2 ++ h) n v = u.writeResult (t1 ++ h) n v)
    (c : Prop) [Decidable c] (t : led_type) (blink : Nat) (h : Trace) {r1 r2 : Bool × Trace}
    (hps : ∃ (b : Bool) (new : Trace), r1 = (b, t1 ++ (h ++ new)) ∧ r2 = (b, t2 ++ (h ++ new))) :
    ∃ (b : Bool) (new : Trace),
      (if c then (r1.1 && ((kLEDs u t).setBreath u blink r1.2).1,
          ((kLEDs u t).setBreath u blink r1.2).2) else r1) = (b, t1 ++ (h ++ new)) ∧
      (if c then (r2.1 && ((kLEDs u t).setBreath u blink r2.2).1,
          ((kLEDs u t).setBreath u blink r2.2).2) else r2) = (b, t2 ++ (h ++ new)) := by
  obtain ⟨b, new, rfl, rfl⟩ := hps
  by_cases hc : c
  · obtain ⟨e, a, a'⟩ := writeToFile_shift H
      (.led (kLEDs u t).type (if (kLEDs u t).mBreath then .breath else .blink))
      (.int (blink : Int)) (h ++ new)
    refine ⟨b && e.ok, new ++ [e], ?_, ?_⟩
    · simp only [if_pos hc, LED.setBreath, a]
      simp
    · simp only [if_pos hc, LED.setBreath, a']
      simp
  · exact ⟨b, new, by rw [if_neg hc], by rw [if_neg hc]⟩

/-- The breath block adds the same entries to both logs and returns the same `rc`. -/
theorem setLED_breathe_shift {u : Utils} {t1 t2 : Trace}
    (H : ∀ h n v, u.writeResult (t2 ++ h) n v = u.writeResult (t1 ++ h) n v)
    (self : Lights) (color : argb_t) (blink : Nat) (h : Trace) :
    ∃ (b : Bool) (new : Trace),
      Lights.setLED.breathe u self color blink true (t1 ++ h) = (b, t1 ++ (h ++ new)) ∧
      Lights.setLED.breathe u self color blink true (t2 ++ h) = (b, t2 ++ (h ++ new)) := by
  unfold Lights.setLED.breathe
  cases hw : self.mWhiteLED
  · have s0 : ∃ (b : Bool) (new : Trace),
        ((true, t1 ++ h) : Bool × Trace) = (b, t1 ++ (h ++ new)) ∧
        ((true, t2 ++ h) : Bool × Trace) = (b, t2 ++ (h ++ new)) := ⟨true, [], by simp, by simp⟩
    have s1 := breath_step_shift H (color.red ≠ 0) .RED blink h s0
    have s2 := breath_step_shift H (color.green ≠ 0) .GREEN blink h s1
    have s3 := breath_step_shift H (color.blue ≠ 0) .BLUE blink h s2
    simp only [Bool.false_eq_true, if_false]
    exact s3
  · obtain ⟨e, a, a'⟩ := writeToFile_shift H
      (.led (kLEDs u .WHITE).type (if (kLEDs u .WHITE).mBreath then .breath else .blink))
      (.int (blink : Int)) h
    refine ⟨e.ok, [e], ?_, ?_⟩
    · simp only [if_true, LED.setBreath, a]
    · simp only [if_true, LED.setBreath, a']

/-- Under a device that answers after `t2` as it does after `t1`, `setLED` adds the
same entries to both logs. -/
theorem setLED_shift {u : Utils} {t1 t2 : Trace}
    (H : ∀ h n v, u.writeResult (t2 ++ h) n v = u.writeResult (t1 ++ h) n v)
    (self : Lights) (state : HwLightState) :
    ∃ new : Trace, self.setLED u state t1 = t1 ++ new ∧ self.setLED u state t2 = t2 ++ new := by
  obtain ⟨d, hd1, hd2⟩ := setLED_disable_shift H self []
  simp only [List.append_nil, List.nil_append] at hd1 hd2
  obtain ⟨s0, hs1, hs2⟩ := setLED_steady_shift H self state (colorToArgb state.color) d
  obtain ⟨b, a, ha1, ha2⟩ := setLED_breathe_shift H self (colorToArgb state.color)
    (if state.flashOnMs ≠ 0 ∧ state.flashOffMs ≠ 0 then 1 else 0) d
  obtain ⟨s, hss1, hss2⟩ := setLED_steady_shift H self state (colorToArgb state.color) (d ++ a)
  have key : ∃ new : Trace,
      (if (Lights.setLED.breathe u self (colorToArgb state.color)
            (if state.flashOnMs ≠ 0 ∧ state.flashOffMs ≠ 0 then 1 else 0) true
            (Lights.setLED.disable u self t1)).1 = true
        then (Lights.setLED.breathe u self (colorToArgb state.color)
            (if state.flashOnMs ≠ 0 ∧ state.flashOffMs ≠ 0 then 1 else 0) true
            (Lights.setLED.disable u self t1)).2
        else Lights.setLED.steady u self state (colorToArgb state.color)
          (Lights.setLED.breathe u self (colorToArgb state.color)
            (if state.flashOnMs ≠ 0 ∧ state.flashOffMs ≠ 0 then 1 else 0) true
            (Lights.setLED.disable u self t1)).2) = t1 ++ new ∧
      (if (Lights.setLED.breathe u self (colorToArgb state.color)
            (if state.flashOnMs ≠ 0 ∧ state.flashOffMs ≠ 0 then 1 else 0) true
            (Lights.setLED.disable u self t2)).1 = true
        then (Lights.setLED.breathe u self (colorToArgb state.color)
            (if state.flashOnMs ≠ 0 ∧ state.flashOffMs ≠ 0 then 1 else 0) true
            (Lights.setLED.disable u self t2)).2
        else Lights.setLED.steady u self state (colorToArgb state.color)
          (Lights.setLED.breathe u self (colorToArgb state.color)
            (if state.flashOnMs ≠ 0 ∧ state.flashOffMs ≠ 0 then 1 else 0) true
            (Lights.setLED.disable u self t2)).2) = t2 ++ new := by
    rw [hd1, hd2, ha1, ha2]
    cases b
    · refine ⟨d ++ (a ++ s), ?_, ?_⟩
      · simp only [Bool.false_eq_true, if_false]
        rw [hss1]; simp
      · simp only [Bool.false_eq_true, if_false]
        rw [hss2]; simp
    · exact ⟨d ++ a, by simp, by simp⟩
  cases hm : state.flashMode
  · refine ⟨d ++ s0, ?_, ?_⟩
    · simp [Lights.setLED, hm, hd1, hs1]
    · simp [Lights.setLED, hm, hd2, hs2]
  · simpa [Lights.setLED, hm] using key
  · simpa [Lights.setLED, hm] using key

/-- The call `setLEDState` in closed form. -/
theorem setLEDState_eq_withSlot (u : Utils) (self : Lights) (state : HwLightState)
    (idx : light_states) (tr : Trace) :
    self.setLEDState u state idx tr =
      some (self.withSlot idx state, (self.withSlot idx state).setLED u
        (Lights.setLEDState.scan HwLightState.default
          (self.withSlot idx state).mLastLightStates.toList) tr) := by
  cases idx <;>
    simp [Lights.setLEDState, Lights.withSlot, light_states.toNat, LastLightStates.atPut]

/-- Storing the same state in the same slot twice is storing it once. -/
theorem withSlot_idem (self : Lights) (idx : light_states) (state : HwLightState) :
    (self.withSlot idx state).withSlot idx state = self.withSlot idx state := by
  cases idx <;> rfl

/-- C14. Let a call `setLEDState(state, idx)` on the log `tr` return the object
`self1` and the log `tr1`, and let the device answer every write after `tr1` as
it answers it after `tr`.  Then the writes of the first call are `new`
(`tr1 = tr ++ new`), and the same call repeated on `self1` and `tr1` returns
`self1` again, so the three slots are as after the first call, and appends the
same entries `new`: the same writes, in the same order, with the same results. -/
theorem setLEDState_twice (u : Utils) (self self1 : Lights) (state : HwLightState)
    (idx : light_states) (tr tr1 : Trace)
    (h1 : self.setLEDState u state idx tr = some (self1, tr1))
    (hdev : ∀ h n v, u.writeResult (tr1 ++ h) n v = u.writeResult (tr ++ h) n v) :
    ∃ new : Trace, tr1 = tr ++ new ∧
      self1.setLEDState u state idx tr1 = some (self1, tr1 ++ new) ∧
      (∀ self2 tr2, self1.setLEDState u state idx tr1 = some (self2, tr2) →
        self2.mLastLightStates = self1.mLastLightStates ∧
        (tr2.drop tr1.length).map Event.write = (tr1.drop tr.length).map Event.write) := by
  rw [setLEDState_eq_withSlot] at h1
  simp only [Option.some.injEq, Prod.mk.injEq] at h1
  obtain ⟨hs, htr1⟩ := h1
  obtain ⟨new, hn1, hn2⟩ := setLED_shift hdev self1
    (Lights.setLEDState.scan HwLightState.default self1.mLastLightStates.toList)
  have ht : tr1 = tr ++ new := by rw [← htr1, hs]; exact hn1
  have hidem : self1.withSlot idx state = self1 := by rw [← hs]; exact withSlot_idem _ _ _
  have hsecond : self1.setLEDState u state idx tr1 = some (self1, tr1 ++ new) := by
    rw [setLEDState_eq_withSlot, hidem, hn2]
  refine ⟨new, ht, hsecond, ?_⟩
  intro self2 tr2 h2
  rw [hsecond] at h2
  simp only [Option.some.injEq, Prod.mk.injEq] at h2
  obtain ⟨rfl, rfl⟩ := h2
  refine ⟨rfl, ?_⟩
  rw [List.drop_left, ht, List.drop_left]


/-- Witness for C14: the battery slot set twice to steady red on a device that
accepts every write. -/
theorem setLEDState_twice_witness :
    ∃ (self1 : Lights) (tr1 new : Trace),
      (Lights.new Utils.allOk).setLEDState Utils.allOk HwLightState.redSteady
        .BATTERY_STATE [] = some (self1, tr1) ∧
      (∀ h n v, Utils.allOk.writeResult (tr1 ++ h) n v =
        Utils.allOk.writeResult ([] ++ h) n v) ∧
      tr1 = [] ++ new ∧
      self1.setLEDState Utils.allOk HwLightState.redSteady .BATTERY_STATE tr1 =
        some (self1, tr1 ++ new) := by
  have h1 := setLEDState_eq_withSlot Utils.allOk (Lights.new Utils.allOk)
    HwLightState.redSteady .BATTERY_STATE []
  obtain ⟨new, a, b, -⟩ := setLEDState_twice Utils.allOk (Lights.new Utils.allOk) _
    HwLightState.redSteady .BATTERY_STATE [] _ h1 (fun _ _ _ => rfl)
  exact ⟨_, _, new, h1, fun _ _ _ => rfl, a, b⟩

/-! ## Backlight and buttons -/

/-- The loop of `case BUTTONS` writes once to each button path, in order. -/
theorem buttons_writes (u : Utils) (lit : Bool) (paths : List String) (tr : Trace) :
    ∃ new : Trace, Lights.setLightState.buttons u lit paths tr = tr ++ new ∧
      new.map Event.write = paths.map (fun p => (Node.file p, Val.int (if lit then 1 else 0))) := by
  induction paths generalizing tr with
  | nil => exact ⟨[], by simp [Lights.setLightState.buttons], rfl⟩
  | cons p rest ih =>
    obtain ⟨new, hn, hm⟩ := ih (writeToFile u (.file p) (.int (if lit then 1 else 0)) tr).2
    refine ⟨⟨.file p, .int (if lit then 1 else 0), u.writeResult tr (.file p)
      (.int (if lit then 1 else 0))⟩ :: new, ?_, ?_⟩
    · rw [Lights.setLightState.buttons, hn]
      simp [writeToFile]
    · simp [hm, Event.write]

/-- None of the backlight and button paths is an attribute file of an LED channel. -/
theorem known_paths_not_led (p : String) (hp : p ∈ kAllBacklightPaths ++ kAllButtonsPaths)
    (t : led_type) (a : LedAttr) : p ≠ (Node.led t a).path := by
  simp only [kAllBacklightPaths, kAllButtonsPaths, List.cons_append, List.nil_append,
    List.mem_cons, List.mem_singleton, List.not_mem_nil, or_false] at hp
  rcases hp with rfl | rfl | rfl | rfl <;> cases t <;> cases a <;> decide

/-- The paths the constructor stores are among the known ones. -/
theorem new_paths_known (u : Utils) :
    ((Lights.new u).mBacklightPath = "" ∨ (Lights.new u).mBacklightPath ∈ kAllBacklightPaths) ∧
    (∀ p ∈ (Lights.new u).mButtonsPaths, p ∈ kAllButtonsPaths) := by
  constructor
  · simp only [Lights.new]
    cases h : kAllBacklightPaths.find? (fun p => u.fileWriteable (.file p)) with
    | none => left; rfl
    | some p =>
      right
      exact List.mem_of_find?_eq_some h
  · intro p hp
    simp only [Lights.new] at hp
    exact (List.mem_filter.mp hp).1

/-- C15. `setLightState` with id BACKLIGHT or BUTTONS returns ok, leaves the object
(so the three slots) unchanged, and none of its writes goes to an attribute of an
LED channel: for BACKLIGHT every write goes to `mBacklightPath`, for BUTTONS the
writes go to the paths of `mButtonsPaths`, one each, in order.  When these paths
are among `kAllBacklightPaths` and `kAllButtonsPaths`, as they are in every object
the constructor builds, the path written differs from the path of every
attribute of red, green, blue and white. -/
theorem setLightState_bypasses_arbiter (u : Utils) (self : Lights) (id : Int)
    (state : HwLightState) (tr : Trace)
    (hid : id = LightType.BACKLIGHT ∨ id = LightType.BUTTONS) :
    ∃ new : Trace,
      self.setLightState u id state tr = some (.ok, self, tr ++ new) ∧
      (∀ e ∈ new, e.channel = none) ∧
      (id = LightType.BACKLIGHT → ∀ e ∈ new, e.node = .file self.mBacklightPath ∧
        self.mBacklightPath ≠ "") ∧
      (id = LightType.BUTTONS → new.map Event.node = self.mButtonsPaths.map Node.file) ∧
      ((self.mBacklightPath = "" ∨ self.mBacklightPath ∈ kAllBacklightPaths) →
        (∀ p ∈ self.mButtonsPaths, p ∈ kAllButtonsPaths) →
        ∀ e ∈ new, ∀ (t : led_type) (a : LedAttr), e.node.path ≠ (Node.led t a).path) ∧
      (∀ u0 : Utils,
        ((Lights.new u0).mBacklightPath = "" ∨
          (Lights.new u0).mBacklightPath ∈ kAllBacklightPaths) ∧
        (∀ p ∈ (Lights.new u0).mButtonsPaths, p ∈ kAllButtonsPaths)) := by
  have hne : LightType.BUTTONS ≠ LightType.BACKLIGHT := by decide
  rcases hid with rfl | rfl
  · by_cases hp : self.mBacklightPath = ""
    · have hcall : self.setLightState u LightType.BACKLIGHT state tr =
          some (.ok, self, tr ++ []) := by
        rw [setLightState_byte _ _ _ _ _ (by decide) (by decide)]
        simp [Lights.setLightState.switch, hp]
      refine ⟨[], hcall, by simp, by simp,
        fun h => absurd h.symm hne, by simp, new_paths_known⟩
    · obtain ⟨ok, hw⟩ := setLightState_backlight u self state tr hp
      refine ⟨_, hw, ?_, ?_, ?_, ?_, new_paths_known⟩
      · intro e he
        rw [List.mem_singleton] at he
        subst he; rfl
      · intro _ e he
        rw [List.mem_singleton] at he
        subst he
        exact ⟨rfl, hp⟩
      · intro h; exact absurd h.symm hne
      · intro hb _ e he t a
        rw [List.mem_singleton] at he
        subst he
        rcases hb with hb | hb
        · exact absurd hb hp
        · exact known_paths_not_led _ (List.mem_append_left _ hb) t a
  · obtain ⟨new, hn, hm⟩ := buttons_writes u (isLit state.color) self.mButtonsPaths tr
    have hnode : new.map Event.node = self.mButtonsPaths.map Node.file := by
      have := congrArg (List.map Prod.fst) hm
      simpa [List.map_map, Function.comp_def, Event.write] using this
    have hmem : ∀ e ∈ new, ∃ p ∈ self.mButtonsPaths, e.node = .file p := by
      intro e he
      have : e.node ∈ new.map Event.node := List.mem_map_of_mem _ he
      rw [hnode, List.mem_map] at this
      obtain ⟨p, hp, hpe⟩ := this
      exact ⟨p, hp, hpe.symm⟩
    refine ⟨new, ?_, ?_, ?_, fun _ => hnode, ?_, new_paths_known⟩
    · rw [setLightState_byte _ _ _ _ _ (by decide) (by decide)]
      simp [Lights.setLightState.switch, hne, hn]
    · intro e he
      obtain ⟨p, -, hpe⟩ := hmem e he
      simp [Event.channel, hpe]
    · intro h; exact absurd h hne
    · intro _ hbt e he t a
      obtain ⟨p, hp, hpe⟩ := hmem e he
      rw [hpe]
      exact known_paths_not_led _ (List.mem_append_right _ (hbt p hp)) t a

/-- Witness for C15: a BUTTONS update on the object the constructor builds. -/
theorem setLightState_bypasses_arbiter_witness :
    (LightType.BUTTONS = LightType.BACKLIGHT ∨ LightType.BUTTONS = LightType.BUTTONS) ∧
    ∃ new : Trace,
      (Lights.new Utils.allOk).setLightState Utils.allOk LightType.BUTTONS
        HwLightState.redSteady [] = some (.ok, Lights.new Utils.allOk, [] ++ new) ∧
      (∀ e ∈ new, e.channel = none) :=
  ⟨Or.inr rfl,
    (setLightState_bypasses_arbiter Utils.allOk (Lights.new Utils.allOk) LightType.BUTTONS
      HwLightState.redSteady [] (Or.inr rfl)).imp (fun _ h => ⟨h.1, h.2.1⟩)⟩

/-! ## The steady path without a white LED -/

end Light
